import Mathlib

/-!
Verification of `q4_mongodb_solution.js`.

The script is a fixed sequence of MongoDB shell calls on the collection `books`.
It is embedded as follows.

* A document of `books` is a `Book`: the six fields every seeded document has.
  Prices are exact rationals: a decimal literal such as `29.99` denotes the rational
  `2999/100`, and `$multiply` is rational multiplication. The server computes on
  binary64 numbers; their rounding is not part of this embedding, so nothing here
  speaks about the last digits of a computed price.
* A collection is the list of its documents in natural (insertion) order.
* Query documents, update documents and the one aggregation-pipeline update are
  data (`Filter`, `Assign`, `PAssign`), written constructor by constructor after the
  literals of the script, and the shell calls `drop`, `insertMany`, `updateMany`,
  `deleteOne`, `deleteMany`, `find`, `sort` and `updateOne` are functions on collections.
* `step1` .. `step12` are the twelve operations in the order the script performs them
  (the script's own comments number the ten exercise answers 1..10, which are
  `step2` .. `step11`; `step1` is the reset and seed, `step12` the final read).
-/

namespace Q4

/-! ## Data model -/

/-- One document of the collection `books`. -/
structure Book where
  book_id : String
  title : String
  author : String
  category : String
  price : ℚ
  in_stock : Bool
deriving DecidableEq

/-- The collection `books`: its documents in natural order. -/
abbrev Collection := List Book

/-- A field value as it appears in a query document. -/
inductive Value where
  | str (s : String)
  | num (q : ℚ)
  | bool (b : Bool)
deriving DecidableEq

/-- The six field names of a document. -/
inductive Field where
  | book_id
  | title
  | author
  | category
  | price
  | in_stock
deriving DecidableEq

/-- Value of a field of a document. -/
def Book.get (b : Book) : Field → Value
  | .book_id => .str b.book_id
  | .title => .str b.title
  | .author => .str b.author
  | .category => .str b.category
  | .price => .num b.price
  | .in_stock => .bool b.in_stock

/-! ## Query documents -/

/-- One condition on a field: a literal (equality) or a query operator
`$lt`, `$gt`, `$lte`, `$gte`, `$in`. -/
inductive Cond where
  | eq (v : Value)
  | lt (q : ℚ)
  | gt (q : ℚ)
  | lte (q : ℚ)
  | gte (q : ℚ)
  | isIn (vs : List Value)

/-- Whether a field value meets a condition. The comparison operators compare numbers
only: a value of another type never meets them. -/
def Cond.holds (v : Value) : Cond → Bool
  | .eq w => decide (v = w)
  | .lt q =>
    match v with
    | .num x => decide (x < q)
    | _ => false
  | .gt q =>
    match v with
    | .num x => decide (q < x)
    | _ => false
  | .lte q =>
    match v with
    | .num x => decide (x ≤ q)
    | _ => false
  | .gte q =>
    match v with
    | .num x => decide (q ≤ x)
    | _ => false
  | .isIn vs => vs.contains v

/-- A query: `field f cs` is the entry `f: ...` of a query document with all the
conditions written for that field (`price: { $gte: 30, $lte: 60 }` has two),
`or` is `$or: [...]`, `and` is `$and: [...]`, and `doc` is a query document
`{ ... }`, the conjunction of its entries. -/
inductive Filter where
  | field (f : Field) (cs : List Cond)
  | or (fs : List Filter)
  | and (fs : List Filter)
  | doc (fs : List Filter)

mutual
/-- Whether a document matches a query. -/
def Filter.sat (b : Book) : Filter → Bool
  | .field f cs => cs.all (Cond.holds (b.get f))
  | .or fs => Filter.satAny b fs
  | .and fs => Filter.satAll b fs
  | .doc fs => Filter.satAll b fs
/-- Whether a document matches one of the queries of a list. -/
def Filter.satAny (b : Book) : List Filter → Bool
  | [] => false
  | f :: fs => Filter.sat b f || Filter.satAny b fs
/-- Whether a document matches every query of a list. -/
def Filter.satAll (b : Book) : List Filter → Bool
  | [] => true
  | f :: fs => Filter.sat b f && Filter.satAll b fs
end

/-! ## Update documents -/

/-- One entry `field: literal` of a `$set` update document. -/
inductive Assign where
  | book_id (s : String)
  | title (s : String)
  | author (s : String)
  | category (s : String)
  | price (q : ℚ)
  | in_stock (v : Bool)

/-- Effect of one `$set` entry on a document. -/
def Assign.apply (b : Book) : Assign → Book
  | .book_id s => { b with book_id := s }
  | .title s => { b with title := s }
  | .author s => { b with author := s }
  | .category s => { b with category := s }
  | .price q => { b with price := q }
  | .in_stock v => { b with in_stock := v }

/-- Effect of a `$set` update document: its entries, in order. -/
def applySet (u : List Assign) (b : Book) : Book :=
  u.foldl Assign.apply b

/-- A numeric aggregation expression: a literal, the field path `"$price"`, or
`$multiply: [a, b]`. -/
inductive NumExpr where
  | lit (q : ℚ)
  | price
  | multiply (a b : NumExpr)

/-- Value of a numeric expression on a document, in exact arithmetic: the product is
the rational product, without the rounding of a binary64 multiplication. -/
def NumExpr.eval (b : Book) : NumExpr → ℚ
  | .lit q => q
  | .price => b.price
  | .multiply x y => x.eval b * y.eval b

/-- One entry of a `$set` pipeline stage: a string or boolean literal for a field of
that type, a numeric expression for `price`. -/
inductive PAssign where
  | book_id (s : String)
  | title (s : String)
  | author (s : String)
  | category (s : String)
  | price (e : NumExpr)
  | in_stock (v : Bool)

/-- The literal entry a pipeline entry amounts to on the stage's input document:
every expression of a stage is evaluated on the document the stage receives. -/
def PAssign.toAssign (input : Book) : PAssign → Assign
  | .book_id s => .book_id s
  | .title s => .title s
  | .author s => .author s
  | .category s => .category s
  | .price e => .price (e.eval input)
  | .in_stock v => .in_stock v

/-- Effect of one `$set` pipeline stage on a document. -/
def applyStage (stage : List PAssign) (b : Book) : Book :=
  applySet (stage.map (PAssign.toAssign b)) b

/-- Effect of an update pipeline: its stages, each on the output of the one before. -/
def applyPipeline (stages : List (List PAssign)) (b : Book) : Book :=
  stages.foldl (fun d stage => applyStage stage d) b

/-! ## Shell calls -/

/-- The call `db.books.drop()`: the collection is emptied. -/
def drop (_c : Collection) : Collection := []

/-- The call `db.books.insertMany(docs)`: the documents are appended in order. -/
def insertMany (docs : List Book) (c : Collection) : Collection := c ++ docs

/-- The call `db.books.updateMany(q, { $set: u })`: every matching document is updated
in place. -/
def updateMany (q : Filter) (u : List Assign) (c : Collection) : Collection :=
  c.map (fun b => if q.sat b then applySet u b else b)

/-- The call `db.books.updateOne(q, pipeline)`: the first matching document, if any,
is updated in place. -/
def updateOne (q : Filter) (stages : List (List PAssign)) : Collection → Collection
  | [] => []
  | b :: bs => if q.sat b then applyPipeline stages b :: bs else b :: updateOne q stages bs

/-- The call `db.books.deleteOne(q)`: the first matching document, if any, is removed. -/
def deleteOne (q : Filter) : Collection → Collection
  | [] => []
  | b :: bs => if q.sat b then bs else b :: deleteOne q bs

/-- The call `db.books.deleteMany(q)`: every matching document is removed. -/
def deleteMany (q : Filter) : Collection → Collection
  | [] => []
  | b :: bs => if q.sat b then deleteMany q bs else b :: deleteMany q bs

/-- The call `db.books.find(q)`: the matching documents, in natural order. -/
def find (q : Filter) (c : Collection) : List Book :=
  c.filter (fun b => q.sat b)

/-- Order of two documents under the sort specification `{ price: dir }`:
ascending for a positive direction, descending otherwise. -/
def priceOrder (dir : Int) (a b : Book) : Prop :=
  if 0 < dir then a.price ≤ b.price else b.price ≤ a.price

instance priceOrderDecidable (dir : Int) : DecidableRel (priceOrder dir) := fun a b => by
  unfold priceOrder
  exact inferInstance

/-- Insertion of a document into a result sequence ordered by `{ price: dir }`. -/
def sortInsert (dir : Int) (a : Book) : List Book → List Book
  | [] => [a]
  | b :: bs => if priceOrder dir a b then a :: b :: bs else b :: sortInsert dir a bs

/-- The cursor method `.sort({ price: dir })`: the result sequence ordered by price,
documents of equal price kept in their order. -/
def sort (dir : Int) : List Book → List Book
  | [] => []
  | b :: bs => sortInsert dir b (sort dir bs)

/-! ## The script -/

/-- The ten documents inserted by `insertMany` at the head of the script. -/
def seed : List Book :=
  [ { book_id := "B001", title := "Data Science Fundamentals", author := "John Smith",
      category := "Technology", price := 29.99, in_stock := true },
    { book_id := "B002", title := "Learning MongoDB", author := "Jane Doe",
      category := "Technology", price := 35.99, in_stock := false },
    { book_id := "B003", title := "Web Development with JavaScript", author := "Mark Lee",
      category := "Programming", price := 24.99, in_stock := true },
    { book_id := "B004", title := "Introduction to Python", author := "Alice Brown",
      category := "Programming", price := 19.99, in_stock := true },
    { book_id := "B005", title := "Advanced SQL Queries", author := "Michael White",
      category := "Database", price := 45.99, in_stock := true },
    { book_id := "B006", title := "C++ Basics", author := "John Smith",
      category := "Programming", price := 29.99, in_stock := true },
    { book_id := "B007", title := "Machine Learning with Python", author := "Sara Green",
      category := "Technology", price := 39.99, in_stock := true },
    { book_id := "B008", title := "Deep Learning Essentials", author := "David Grey",
      category := "Technology", price := 59.99, in_stock := false },
    { book_id := "B009", title := "Data Structures in Java", author := "Lucas Blue",
      category := "Programming", price := 49.99, in_stock := true },
    { book_id := "B010", title := "Artificial Intelligence", author := "Sophia Grey",
      category := "Technology", price := 69.99, in_stock := true } ]

/-- Query of answer 1: `{ category: "Technology", price: { $lt: 40 } }`. -/
def filterQ1 : Filter :=
  .doc [.field .category [.eq (.str "Technology")], .field .price [.lt 40]]

/-- Query of answer 2: `{ book_id: "B008", in_stock: false }`. -/
def filterQ2 : Filter :=
  .doc [.field .book_id [.eq (.str "B008")], .field .in_stock [.eq (.bool false)]]

/-- Query of answer 3:
`{ author: "John Smith", category: "Technology", price: { $gt: 20 }, in_stock: true }`. -/
def filterQ3 : Filter :=
  .doc [.field .author [.eq (.str "John Smith")], .field .category [.eq (.str "Technology")],
    .field .price [.gt 20], .field .in_stock [.eq (.bool true)]]

/-- Query of answer 4: `{ category: "Programming", price: { $gt: 25 }, in_stock: true }`. -/
def filterQ4 : Filter :=
  .doc [.field .category [.eq (.str "Programming")], .field .price [.gt 25],
    .field .in_stock [.eq (.bool true)]]

/-- Query of answer 5:
`{ $or: [{ category: "Programming", in_stock: false }, { price: { $gt: 50 } }] }`. -/
def filterQ5 : Filter :=
  .doc [.or [.doc [.field .category [.eq (.str "Programming")],
                   .field .in_stock [.eq (.bool false)]],
             .doc [.field .price [.gt 50]]]]

/-- Query of answer 6: `{ book_id: { $in: ["B005", "B006"] } }`. -/
def filterQ6 : Filter :=
  .doc [.field .book_id [.isIn [.str "B005", .str "B006"]]]

/-- Query of answer 7:
`{ $or: [{ author: "Jane Doe" }, { category: "Database" }], price: { $gte: 30, $lte: 60 } }`. -/
def filterQ7 : Filter :=
  .doc [.or [.doc [.field .author [.eq (.str "Jane Doe")]],
             .doc [.field .category [.eq (.str "Database")]]],
        .field .price [.gte 30, .lte 60]]

/-- Query of answer 8: `{ category: "Programming", in_stock: true, price: { $lt: 50 } }`. -/
def filterQ8 : Filter :=
  .doc [.field .category [.eq (.str "Programming")], .field .in_stock [.eq (.bool true)],
    .field .price [.lt 50]]

/-- Query of answer 9: `{ category: "Technology", price: { $lt: 30 }, in_stock: false }`. -/
def filterQ9 : Filter :=
  .doc [.field .category [.eq (.str "Technology")], .field .price [.lt 30],
    .field .in_stock [.eq (.bool false)]]

/-- Query of answer 10: `{ book_id: "B010" }`. -/
def filterQ10 : Filter :=
  .doc [.field .book_id [.eq (.str "B010")]]

/-- Pipeline of answer 10:
`[{ $set: { title: "AI Revolution", price: { $multiply: ["$price", 0.9] } } }]`. -/
def pipelineQ10 : List (List PAssign) :=
  [[.title "AI Revolution", .price (.multiply .price (.lit 0.9))]]

/-- Query of the trailing `find` after the last comment of the script. -/
def filterTrailing : Filter :=
  .doc [.and [.doc [.or [.doc [.field .author [.eq (.str "Jane Doe")]],
                         .doc [.field .category [.eq (.str "Database")]]]],
              .doc [.and [.doc [.field .price [.gt 30]], .doc [.field .price [.lt 60]]]]]]

/-- Step 1: `db.books.drop()` followed by `db.books.insertMany([...])`. -/
def step1 (c : Collection) : Collection := insertMany seed (drop c)

/-- Step 2 (answer 1): `updateMany` setting `in_stock: false`. -/
def step2 (c : Collection) : Collection := updateMany filterQ1 [.in_stock false] c

/-- Step 3 (answer 2): `deleteOne`. -/
def step3 (c : Collection) : Collection := deleteOne filterQ2 c

/-- Step 4 (answer 3): `updateMany` setting `price: 35`. -/
def step4 (c : Collection) : Collection := updateMany filterQ3 [.price 35] c

/-- Step 5 (answer 4): the printed result of `find(...).sort({ price: -1 })`. -/
def step5 (c : Collection) : List Book := sort (-1) (find filterQ4 c)

/-- Step 6 (answer 5): `deleteMany`. -/
def step6 (c : Collection) : Collection := deleteMany filterQ5 c

/-- Step 7 (answer 6): `updateMany` setting `price: 40, in_stock: true`. -/
def step7 (c : Collection) : Collection := updateMany filterQ6 [.price 40, .in_stock true] c

/-- Step 8 (answer 7): the printed result of `find`. -/
def step8 (c : Collection) : List Book := find filterQ7 c

/-- Step 9 (answer 8): `updateMany` setting `price: 50`. -/
def step9 (c : Collection) : Collection := updateMany filterQ8 [.price 50] c

/-- Step 10 (answer 9): `deleteMany`. -/
def step10 (c : Collection) : Collection := deleteMany filterQ9 c

/-- Step 11 (answer 10): `updateOne` with the aggregation pipeline. -/
def step11 (c : Collection) : Collection := updateOne filterQ10 pipelineQ10 c

/-- Step 12: the final `find()` of the whole collection. -/
def step12 (c : Collection) : List Book := find (.doc []) c

/-- The trailing `find` at the end of the file. -/
def trailingFind (c : Collection) : List Book := find filterTrailing c

/-- Effect of step `k` on the collection; the reads (steps 5, 8 and 12) leave it as it is. -/
def applyStep : Nat → Collection → Collection
  | 1 => step1
  | 2 => step2
  | 3 => step3
  | 4 => step4
  | 6 => step6
  | 7 => step7
  | 9 => step9
  | 10 => step10
  | 11 => step11
  | _ => id

/-- The collection after steps `1 .. n` of the script, run on a collection `c`. -/
def runThrough : Nat → Collection → Collection
  | 0, c => c
  | n + 1, c => applyStep (n + 1) (runThrough n c)

/-! ## Stored documents of any type, and the outcome of a call

The server does not enforce the types of the data model: a stored document may hold a
value of any type in any field. On such documents a call either succeeds with the new
collection or fails with the server's message; in this script only `$multiply` can
fail, on an operand that is not a number. -/

/-- A stored document as the server holds it: each of the six fields has a value of
any type. -/
structure RawBook where
  book_id : Value
  title : Value
  author : Value
  category : Value
  price : Value
  in_stock : Value
deriving DecidableEq

/-- The stored form of a document of the data model. -/
def Book.toRaw (b : Book) : RawBook :=
  { book_id := .str b.book_id, title := .str b.title, author := .str b.author,
    category := .str b.category, price := .num b.price, in_stock := .bool b.in_stock }

/-- Value of a field of a stored document. -/
def RawBook.get (d : RawBook) : Field → Value
  | .book_id => d.book_id
  | .title => d.title
  | .author => d.author
  | .category => d.category
  | .price => d.price
  | .in_stock => d.in_stock

mutual
/-- Whether a stored document matches a query. -/
def Filter.satRaw (d : RawBook) : Filter → Bool
  | .field f cs => cs.all (Cond.holds (d.get f))
  | .or fs => Filter.satAnyRaw d fs
  | .and fs => Filter.satAllRaw d fs
  | .doc fs => Filter.satAllRaw d fs
/-- Whether a stored document matches one of the queries of a list. -/
def Filter.satAnyRaw (d : RawBook) : List Filter → Bool
  | [] => false
  | f :: fs => Filter.satRaw d f || Filter.satAnyRaw d fs
/-- Whether a stored document matches every query of a list. -/
def Filter.satAllRaw (d : RawBook) : List Filter → Bool
  | [] => true
  | f :: fs => Filter.satRaw d f && Filter.satAllRaw d fs
end

/-- Effect of one `$set` entry on a stored document. -/
def Assign.applyRaw (d : RawBook) : Assign → RawBook
  | .book_id s => { d with book_id := .str s }
  | .title s => { d with title := .str s }
  | .author s => { d with author := .str s }
  | .category s => { d with category := .str s }
  | .price q => { d with price := .num q }
  | .in_stock v => { d with in_stock := .bool v }

/-- Effect of a `$set` update document on a stored document: its entries, in order. -/
def applySetRaw (u : List Assign) (d : RawBook) : RawBook :=
  u.foldl Assign.applyRaw d

/-- The message of the server when `$multiply` meets an operand that is not a number. -/
def multiplyError : String := "$multiply only supports numeric types"

/-- Value of a numeric expression on a stored document: the field path `"$price"` is
whatever the field holds, and `$multiply` fails unless both operands are numbers. -/
def NumExpr.evalRaw (d : RawBook) : NumExpr → Except String Value
  | .lit q => .ok (.num q)
  | .price => .ok d.price
  | .multiply x y =>
    match x.evalRaw d, y.evalRaw d with
    | .error e, _ => .error e
    | .ok _, .error e => .error e
    | .ok (.num a), .ok (.num b) => .ok (.num (a * b))
    | .ok _, .ok _ => .error multiplyError

/-- Effect of one entry of a `$set` pipeline stage on the document `d` being built, its
expression evaluated on the document `input` the stage received. -/
def PAssign.applyRaw (input d : RawBook) : PAssign → Except String RawBook
  | .book_id s => .ok { d with book_id := .str s }
  | .title s => .ok { d with title := .str s }
  | .author s => .ok { d with author := .str s }
  | .category s => .ok { d with category := .str s }
  | .price e =>
    match e.evalRaw input with
    | .ok v => .ok { d with price := v }
    | .error m => .error m
  | .in_stock v => .ok { d with in_stock := .bool v }

/-- Effect of the entries of a `$set` pipeline stage, in order; the first failure ends
the stage. -/
def applyEntriesRaw (input : RawBook) : List PAssign → RawBook → Except String RawBook
  | [], d => .ok d
  | a :: as, d =>
    match PAssign.applyRaw input d a with
    | .ok d2 => applyEntriesRaw input as d2
    | .error m => .error m

/-- Effect of one `$set` pipeline stage on a stored document. -/
def applyStageRaw (stage : List PAssign) (d : RawBook) : Except String RawBook :=
  applyEntriesRaw d stage d

/-- Effect of an update pipeline on a stored document: its stages, each on the output of
the one before; the first failure ends the pipeline. -/
def applyPipelineRaw : List (List PAssign) → RawBook → Except String RawBook
  | [], d => .ok d
  | stage :: stages, d =>
    match applyStageRaw stage d with
    | .ok d2 => applyPipelineRaw stages d2
    | .error m => .error m

/-- The call `updateMany(q, { $set: u })` on stored documents. -/
def updateManyRaw (q : Filter) (u : List Assign) (c : List RawBook) : List RawBook :=
  c.map (fun d => if q.satRaw d then applySetRaw u d else d)

/-- The call `updateOne(q, pipeline)` on stored documents: the first matching document,
if any, is updated in place; if its pipeline fails, the call fails. -/
def updateOneRaw (q : Filter) (stages : List (List PAssign)) :
    List RawBook → Except String (List RawBook)
  | [] => .ok []
  | d :: ds =>
    if q.satRaw d then
      match applyPipelineRaw stages d with
      | .ok d2 => .ok (d2 :: ds)
      | .error m => .error m
    else
      match updateOneRaw q stages ds with
      | .ok r => .ok (d :: r)
      | .error m => .error m

/-- The call `deleteOne(q)` on stored documents. -/
def deleteOneRaw (q : Filter) : List RawBook → List RawBook
  | [] => []
  | d :: ds => if q.satRaw d then ds else d :: deleteOneRaw q ds

/-- The call `deleteMany(q)` on stored documents. -/
def deleteManyRaw (q : Filter) : List RawBook → List RawBook
  | [] => []
  | d :: ds => if q.satRaw d then deleteManyRaw q ds else d :: deleteManyRaw q ds

/-- Outcome of step 2 on stored documents. -/
def step2Raw (c : List RawBook) : Except String (List RawBook) :=
  .ok (updateManyRaw filterQ1 [.in_stock false] c)

/-- Outcome of step 3 on stored documents. -/
def step3Raw (c : List RawBook) : Except String (List RawBook) :=
  .ok (deleteOneRaw filterQ2 c)

/-- Outcome of step 4 on stored documents. -/
def step4Raw (c : List RawBook) : Except String (List RawBook) :=
  .ok (updateManyRaw filterQ3 [.price 35] c)

/-- Outcome of step 6 on stored documents. -/
def step6Raw (c : List RawBook) : Except String (List RawBook) :=
  .ok (deleteManyRaw filterQ5 c)

/-- Outcome of step 7 on stored documents. -/
def step7Raw (c : List RawBook) : Except String (List RawBook) :=
  .ok (updateManyRaw filterQ6 [.price 40, .in_stock true] c)

/-- Outcome of step 9 on stored documents. -/
def step9Raw (c : List RawBook) : Except String (List RawBook) :=
  .ok (updateManyRaw filterQ8 [.price 50] c)

/-- Outcome of step 10 on stored documents. -/
def step10Raw (c : List RawBook) : Except String (List RawBook) :=
  .ok (deleteManyRaw filterQ9 c)

/-- Outcome of step 11 on stored documents. -/
def step11Raw (c : List RawBook) : Except String (List RawBook) :=
  updateOneRaw filterQ10 pipelineQ10 c

/-! ## What each query of the script asks of a document -/

theorem filterQ1_sat (b : Book) :
    filterQ1.sat b = decide (b.category = "Technology" ∧ b.price < 40) := by
  simp [filterQ1, Filter.sat, Filter.satAll, Cond.holds, Book.get]

theorem filterQ2_sat (b : Book) :
    filterQ2.sat b = decide (b.book_id = "B008" ∧ b.in_stock = false) := by
  simp [filterQ2, Filter.sat, Filter.satAll, Cond.holds, Book.get]

theorem filterQ3_sat (b : Book) :
    filterQ3.sat b = decide (b.author = "John Smith" ∧ b.category = "Technology" ∧
      20 < b.price ∧ b.in_stock = true) := by
  simp [filterQ3, Filter.sat, Filter.satAll, Cond.holds, Book.get]

theorem filterQ4_sat (b : Book) :
    filterQ4.sat b = decide (b.category = "Programming" ∧ 25 < b.price ∧
      b.in_stock = true) := by
  simp [filterQ4, Filter.sat, Filter.satAll, Cond.holds, Book.get]

theorem filterQ5_sat (b : Book) :
    filterQ5.sat b = decide ((b.category = "Programming" ∧ b.in_stock = false) ∨
      50 < b.price) := by
  simp [filterQ5, Filter.sat, Filter.satAll, Filter.satAny, Cond.holds, Book.get]

theorem filterQ6_sat (b : Book) :
    filterQ6.sat b = decide (b.book_id = "B005" ∨ b.book_id = "B006") := by
  simp [filterQ6, Filter.sat, Filter.satAll, Cond.holds, Book.get]

theorem filterQ7_sat (b : Book) :
    filterQ7.sat b = decide ((b.author = "Jane Doe" ∨ b.category = "Database") ∧
      30 ≤ b.price ∧ b.price ≤ 60) := by
  simp [filterQ7, Filter.sat, Filter.satAll, Filter.satAny, Cond.holds, Book.get]

theorem filterQ8_sat (b : Book) :
    filterQ8.sat b = decide (b.category = "Programming" ∧ b.in_stock = true ∧
      b.price < 50) := by
  simp [filterQ8, Filter.sat, Filter.satAll, Cond.holds, Book.get]

theorem filterQ9_sat (b : Book) :
    filterQ9.sat b = decide (b.category = "Technology" ∧ b.price < 30 ∧
      b.in_stock = false) := by
  simp [filterQ9, Filter.sat, Filter.satAll, Cond.holds, Book.get]

theorem filterQ10_sat (b : Book) :
    filterQ10.sat b = decide (b.book_id = "B010") := by
  simp [filterQ10, Filter.sat, Filter.satAll, Cond.holds, Book.get]

/-! ## The shell calls on an arbitrary collection -/

theorem deleteMany_eq_filter (q : Filter) (c : Collection) :
    deleteMany q c = c.filter (fun b => !q.sat b) := by
  induction c with
  | nil => rfl
  | cons b bs ih =>
    cases h : q.sat b <;> simp [deleteMany, h, ih]

theorem deleteOne_of_none (q : Filter) (c : Collection)
    (h : ∀ b ∈ c, q.sat b = false) : deleteOne q c = c := by
  induction c with
  | nil => rfl
  | cons b bs ih =>
    have hb : q.sat b = false := h b (List.mem_cons_self b bs)
    have hbs : ∀ x ∈ bs, q.sat x = false := fun x hx => h x (List.mem_cons_of_mem b hx)
    simp [deleteOne, hb, ih hbs]

theorem deleteOne_split (q : Filter) (c : Collection)
    (h : ∃ b ∈ c, q.sat b = true) :
    ∃ pre m post, c = pre ++ m :: post ∧ (∀ x ∈ pre, q.sat x = false) ∧
      q.sat m = true ∧ deleteOne q c = pre ++ post := by
  induction c with
  | nil =>
    obtain ⟨b, hb, _⟩ := h
    cases hb
  | cons a as ih =>
    cases ha : q.sat a with
    | true =>
      exact ⟨[], a, as, rfl, by simp, ha, by simp [deleteOne, ha]⟩
    | false =>
      have hex : ∃ b ∈ as, q.sat b = true := by
        obtain ⟨b, hb, hsat⟩ := h
        rcases List.mem_cons.mp hb with rfl | hmem
        · rw [ha] at hsat
          cases hsat
        · exact ⟨b, hmem, hsat⟩
      obtain ⟨pre, m, post, hc, hpre, hm, hdel⟩ := ih hex
      refine ⟨a :: pre, m, post, by simp [hc], ?_, hm, by simp [deleteOne, ha, hdel]⟩
      intro x hx
      rcases List.mem_cons.mp hx with rfl | hmem
      · exact ha
      · exact hpre x hmem

theorem updateOne_of_none (q : Filter) (stages : List (List PAssign)) (c : Collection)
    (h : ∀ b ∈ c, q.sat b = false) : updateOne q stages c = c := by
  induction c with
  | nil => rfl
  | cons b bs ih =>
    have hb : q.sat b = false := h b (List.mem_cons_self b bs)
    have hbs : ∀ x ∈ bs, q.sat x = false := fun x hx => h x (List.mem_cons_of_mem b hx)
    simp [updateOne, hb, ih hbs]

theorem priceOrder_total (dir : Int) (a b : Book) :
    priceOrder dir a b ∨ priceOrder dir b a := by
  unfold priceOrder
  split
  · exact le_total a.price b.price
  · exact le_total b.price a.price

theorem priceOrder_trans (dir : Int) (a b d : Book)
    (hab : priceOrder dir a b) (hbd : priceOrder dir b d) : priceOrder dir a d := by
  unfold priceOrder at *
  split
  · rename_i h
    rw [if_pos h] at hab hbd
    exact le_trans hab hbd
  · rename_i h
    rw [if_neg h] at hab hbd
    exact le_trans hbd hab

theorem sortInsert_perm (dir : Int) (a : Book) (l : List Book) :
    (sortInsert dir a l).Perm (a :: l) := by
  induction l with
  | nil => exact List.Perm.refl _
  | cons b bs ih =>
    unfold sortInsert
    split
    · exact List.Perm.refl _
    · exact (List.Perm.cons b ih).trans (List.Perm.swap a b bs)

theorem sort_perm (dir : Int) (l : List Book) : (sort dir l).Perm l := by
  induction l with
  | nil => exact List.Perm.refl _
  | cons b bs ih =>
    exact (sortInsert_perm dir b (sort dir bs)).trans (List.Perm.cons b ih)

theorem sortInsert_pairwise (dir : Int) (a : Book) (l : List Book)
    (hl : l.Pairwise (priceOrder dir)) : (sortInsert dir a l).Pairwise (priceOrder dir) := by
  induction l with
  | nil => simp [sortInsert]
  | cons b bs ih =>
    have hb : ∀ x ∈ bs, priceOrder dir b x := (List.pairwise_cons.mp hl).1
    have hbs : bs.Pairwise (priceOrder dir) := (List.pairwise_cons.mp hl).2
    unfold sortInsert
    split
    · rename_i hab
      refine List.pairwise_cons.mpr ⟨?_, hl⟩
      intro x hx
      rcases List.mem_cons.mp hx with rfl | hmem
      · exact hab
      · exact priceOrder_trans dir a b x hab (hb x hmem)
    · rename_i hab
      have hba : priceOrder dir b a := (priceOrder_total dir a b).resolve_left hab
      refine List.pairwise_cons.mpr ⟨?_, ih hbs⟩
      intro x hx
      rcases List.mem_cons.mp ((sortInsert_perm dir a bs).mem_iff.mp hx) with rfl | hmem
      · exact hba
      · exact hb x hmem

theorem sort_pairwise (dir : Int) (l : List Book) :
    (sort dir l).Pairwise (priceOrder dir) := by
  induction l with
  | nil => exact List.Pairwise.nil
  | cons b bs ih => exact sortInsert_pairwise dir b (sort dir bs) ih

/-! ## The run of the script: the collection after each step -/

theorem runThrough_1 (prior : Collection) : runThrough 1 prior = seed := by
  simp [runThrough, applyStep, step1, insertMany, drop]

theorem runThrough_2 (prior : Collection) : runThrough 2 prior =
    [ ⟨"B001", "Data Science Fundamentals", "John Smith", "Technology", 29.99, false⟩,
      ⟨"B002", "Learning MongoDB", "Jane Doe", "Technology", 35.99, false⟩,
      ⟨"B003", "Web Development with JavaScript", "Mark Lee", "Programming", 24.99, true⟩,
      ⟨"B004", "Introduction to Python", "Alice Brown", "Programming", 19.99, true⟩,
      ⟨"B005", "Advanced SQL Queries", "Michael White", "Database", 45.99, true⟩,
      ⟨"B006", "C++ Basics", "John Smith", "Programming", 29.99, true⟩,
      ⟨"B007", "Machine Learning with Python", "Sara Green", "Technology", 39.99, false⟩,
      ⟨"B008", "Deep Learning Essentials", "David Grey", "Technology", 59.99, false⟩,
      ⟨"B009", "Data Structures in Java", "Lucas Blue", "Programming", 49.99, true⟩,
      ⟨"B010", "Artificial Intelligence", "Sophia Grey", "Technology", 69.99, true⟩ ] := by
  have h : runThrough 2 prior = applyStep 2 (runThrough 1 prior) := rfl
  rw [h, runThrough_1]
  show step2 _ = _
  simp [step2, updateMany, filterQ1_sat, seed, applySet, Assign.apply]
  norm_num

theorem runThrough_3 (prior : Collection) : runThrough 3 prior =
    [ ⟨"B001", "Data Science Fundamentals", "John Smith", "Technology", 29.99, false⟩,
      ⟨"B002", "Learning MongoDB", "Jane Doe", "Technology", 35.99, false⟩,
      ⟨"B003", "Web Development with JavaScript", "Mark Lee", "Programming", 24.99, true⟩,
      ⟨"B004", "Introduction to Python", "Alice Brown", "Programming", 19.99, true⟩,
      ⟨"B005", "Advanced SQL Queries", "Michael White", "Database", 45.99, true⟩,
      ⟨"B006", "C++ Basics", "John Smith", "Programming", 29.99, true⟩,
      ⟨"B007", "Machine Learning with Python", "Sara Green", "Technology", 39.99, false⟩,
      ⟨"B009", "Data Structures in Java", "Lucas Blue", "Programming", 49.99, true⟩,
      ⟨"B010", "Artificial Intelligence", "Sophia Grey", "Technology", 69.99, true⟩ ] := by
  have h : runThrough 3 prior = applyStep 3 (runThrough 2 prior) := rfl
  rw [h, runThrough_2]
  show step3 _ = _
  simp [step3, deleteOne, filterQ2_sat]

theorem runThrough_4 (prior : Collection) : runThrough 4 prior =
    [ ⟨"B001", "Data Science Fundamentals", "John Smith", "Technology", 29.99, false⟩,
      ⟨"B002", "Learning MongoDB", "Jane Doe", "Technology", 35.99, false⟩,
      ⟨"B003", "Web Development with JavaScript", "Mark Lee", "Programming", 24.99, true⟩,
      ⟨"B004", "Introduction to Python", "Alice Brown", "Programming", 19.99, true⟩,
      ⟨"B005", "Advanced SQL Queries", "Michael White", "Database", 45.99, true⟩,
      ⟨"B006", "C++ Basics", "John Smith", "Programming", 29.99, true⟩,
      ⟨"B007", "Machine Learning with Python", "Sara Green", "Technology", 39.99, false⟩,
      ⟨"B009", "Data Structures in Java", "Lucas Blue", "Programming", 49.99, true⟩,
      ⟨"B010", "Artificial Intelligence", "Sophia Grey", "Technology", 69.99, true⟩ ] := by
  have h : runThrough 4 prior = applyStep 4 (runThrough 3 prior) := rfl
  rw [h, runThrough_3]
  show step4 _ = _
  simp [step4, updateMany, filterQ3_sat, applySet, Assign.apply]

theorem runThrough_5 (prior : Collection) : runThrough 5 prior =
    [ ⟨"B001", "Data Science Fundamentals", "John Smith", "Technology", 29.99, false⟩,
      ⟨"B002", "Learning MongoDB", "Jane Doe", "Technology", 35.99, false⟩,
      ⟨"B003", "Web Development with JavaScript", "Mark Lee", "Programming", 24.99, true⟩,
      ⟨"B004", "Introduction to Python", "Alice Brown", "Programming", 19.99, true⟩,
      ⟨"B005", "Advanced SQL Queries", "Michael White", "Database", 45.99, true⟩,
      ⟨"B006", "C++ Basics", "John Smith", "Programming", 29.99, true⟩,
      ⟨"B007", "Machine Learning with Python", "Sara Green", "Technology", 39.99, false⟩,
      ⟨"B009", "Data Structures in Java", "Lucas Blue", "Programming", 49.99, true⟩,
      ⟨"B010", "Artificial Intelligence", "Sophia Grey", "Technology", 69.99, true⟩ ] := by
  have h : runThrough 5 prior = applyStep 5 (runThrough 4 prior) := rfl
  rw [h, runThrough_4]
  rfl

theorem runThrough_6 (prior : Collection) : runThrough 6 prior =
    [ ⟨"B001", "Data Science Fundamentals", "John Smith", "Technology", 29.99, false⟩,
      ⟨"B002", "Learning MongoDB", "Jane Doe", "Technology", 35.99, false⟩,
      ⟨"B003", "Web Development with JavaScript", "Mark Lee", "Programming", 24.99, true⟩,
      ⟨"B004", "Introduction to Python", "Alice Brown", "Programming", 19.99, true⟩,
      ⟨"B005", "Advanced SQL Queries", "Michael White", "Database", 45.99, true⟩,
      ⟨"B006", "C++ Basics", "John Smith", "Programming", 29.99, true⟩,
      ⟨"B007", "Machine Learning with Python", "Sara Green", "Technology", 39.99, false⟩,
      ⟨"B009", "Data Structures in Java", "Lucas Blue", "Programming", 49.99, true⟩ ] := by
  have h : runThrough 6 prior = applyStep 6 (runThrough 5 prior) := rfl
  rw [h, runThrough_5]
  show step6 _ = _
  simp [step6, deleteMany, filterQ5_sat]
  norm_num

theorem runThrough_7 (prior : Collection) : runThrough 7 prior =
    [ ⟨"B001", "Data Science Fundamentals", "John Smith", "Technology", 29.99, false⟩,
      ⟨"B002", "Learning MongoDB", "Jane Doe", "Technology", 35.99, false⟩,
      ⟨"B003", "Web Development with JavaScript", "Mark Lee", "Programming", 24.99, true⟩,
      ⟨"B004", "Introduction to Python", "Alice Brown", "Programming", 19.99, true⟩,
      ⟨"B005", "Advanced SQL Queries", "Michael White", "Database", 40, true⟩,
      ⟨"B006", "C++ Basics", "John Smith", "Programming", 40, true⟩,
      ⟨"B007", "Machine Learning with Python", "Sara Green", "Technology", 39.99, false⟩,
      ⟨"B009", "Data Structures in Java", "Lucas Blue", "Programming", 49.99, true⟩ ] := by
  have h : runThrough 7 prior = applyStep 7 (runThrough 6 prior) := rfl
  rw [h, runThrough_6]
  show step7 _ = _
  simp [step7, updateMany, filterQ6_sat, applySet, Assign.apply]

theorem runThrough_8 (prior : Collection) : runThrough 8 prior =
    [ ⟨"B001", "Data Science Fundamentals", "John Smith", "Technology", 29.99, false⟩,
      ⟨"B002", "Learning MongoDB", "Jane Doe", "Technology", 35.99, false⟩,
      ⟨"B003", "Web Development with JavaScript", "Mark Lee", "Programming", 24.99, true⟩,
      ⟨"B004", "Introduction to Python", "Alice Brown", "Programming", 19.99, true⟩,
      ⟨"B005", "Advanced SQL Queries", "Michael White", "Database", 40, true⟩,
      ⟨"B006", "C++ Basics", "John Smith", "Programming", 40, true⟩,
      ⟨"B007", "Machine Learning with Python", "Sara Green", "Technology", 39.99, false⟩,
      ⟨"B009", "Data Structures in Java", "Lucas Blue", "Programming", 49.99, true⟩ ] := by
  have h : runThrough 8 prior = applyStep 8 (runThrough 7 prior) := rfl
  rw [h, runThrough_7]
  rfl

theorem runThrough_9 (prior : Collection) : runThrough 9 prior =
    [ ⟨"B001", "Data Science Fundamentals", "John Smith", "Technology", 29.99, false⟩,
      ⟨"B002", "Learning MongoDB", "Jane Doe", "Technology", 35.99, false⟩,
      ⟨"B003", "Web Development with JavaScript", "Mark Lee", "Programming", 50, true⟩,
      ⟨"B004", "Introduction to Python", "Alice Brown", "Programming", 50, true⟩,
      ⟨"B005", "Advanced SQL Queries", "Michael White", "Database", 40, true⟩,
      ⟨"B006", "C++ Basics", "John Smith", "Programming", 50, true⟩,
      ⟨"B007", "Machine Learning with Python", "Sara Green", "Technology", 39.99, false⟩,
      ⟨"B009", "Data Structures in Java", "Lucas Blue", "Programming", 50, true⟩ ] := by
  have h : runThrough 9 prior = applyStep 9 (runThrough 8 prior) := rfl
  rw [h, runThrough_8]
  show step9 _ = _
  simp [step9, updateMany, filterQ8_sat, applySet, Assign.apply]
  norm_num

theorem runThrough_10 (prior : Collection) : runThrough 10 prior =
    [ ⟨"B002", "Learning MongoDB", "Jane Doe", "Technology", 35.99, false⟩,
      ⟨"B003", "Web Development with JavaScript", "Mark Lee", "Programming", 50, true⟩,
      ⟨"B004", "Introduction to Python", "Alice Brown", "Programming", 50, true⟩,
      ⟨"B005", "Advanced SQL Queries", "Michael White", "Database", 40, true⟩,
      ⟨"B006", "C++ Basics", "John Smith", "Programming", 50, true⟩,
      ⟨"B007", "Machine Learning with Python", "Sara Green", "Technology", 39.99, false⟩,
      ⟨"B009", "Data Structures in Java", "Lucas Blue", "Programming", 50, true⟩ ] := by
  have h : runThrough 10 prior = applyStep 10 (runThrough 9 prior) := rfl
  rw [h, runThrough_9]
  show step10 _ = _
  simp [step10, deleteMany, filterQ9_sat]
  norm_num

theorem runThrough_11 (prior : Collection) : runThrough 11 prior =
    [ ⟨"B002", "Learning MongoDB", "Jane Doe", "Technology", 35.99, false⟩,
      ⟨"B003", "Web Development with JavaScript", "Mark Lee", "Programming", 50, true⟩,
      ⟨"B004", "Introduction to Python", "Alice Brown", "Programming", 50, true⟩,
      ⟨"B005", "Advanced SQL Queries", "Michael White", "Database", 40, true⟩,
      ⟨"B006", "C++ Basics", "John Smith", "Programming", 50, true⟩,
      ⟨"B007", "Machine Learning with Python", "Sara Green", "Technology", 39.99, false⟩,
      ⟨"B009", "Data Structures in Java", "Lucas Blue", "Programming", 50, true⟩ ] := by
  have h : runThrough 11 prior = applyStep 11 (runThrough 10 prior) := rfl
  rw [h, runThrough_10]
  show step11 _ = _
  simp [step11, updateOne, filterQ10_sat]

theorem runThrough_12 (prior : Collection) : runThrough 12 prior =
    [ ⟨"B002", "Learning MongoDB", "Jane Doe", "Technology", 35.99, false⟩,
      ⟨"B003", "Web Development with JavaScript", "Mark Lee", "Programming", 50, true⟩,
      ⟨"B004", "Introduction to Python", "Alice Brown", "Programming", 50, true⟩,
      ⟨"B005", "Advanced SQL Queries", "Michael White", "Database", 40, true⟩,
      ⟨"B006", "C++ Basics", "John Smith", "Programming", 50, true⟩,
      ⟨"B007", "Machine Learning with Python", "Sara Green", "Technology", 39.99, false⟩,
      ⟨"B009", "Data Structures in Java", "Lucas Blue", "Programming", 50, true⟩ ] := by
  have h : runThrough 12 prior = applyStep 12 (runThrough 11 prior) := rfl
  rw [h, runThrough_11]
  rfl

/-! ## Claims -/

/-- C1: on the run from the seed, the record B010 is still in the collection with its
seeded price 69.99 when step 6 starts, 69.99 is greater than 50 and the record matches
the query of step 6, step 6 removes it, so no record with book_id B010 exists when
step 11 runs, and step 11 leaves the collection unchanged. -/
theorem C1_B010_removed_at_step6 (prior : Collection) :
    runThrough 1 prior = seed ∧
    (∃ b ∈ seed, b.book_id = "B010" ∧ b.price = 69.99) ∧
    (∃ b ∈ runThrough 5 prior, b.book_id = "B010" ∧ b.price = 69.99 ∧ (50 : ℚ) < b.price ∧
      filterQ5.sat b = true) ∧
    (∀ b ∈ runThrough 6 prior, b.book_id ≠ "B010") ∧
    (∀ b ∈ runThrough 10 prior, b.book_id ≠ "B010") ∧
    step11 (runThrough 10 prior) = runThrough 10 prior ∧
    runThrough 11 prior = runThrough 10 prior := by
  refine ⟨runThrough_1 prior, ?_, ?_, ?_, ?_, ?_, ?_⟩
  · simp [seed]
  · rw [runThrough_5]
    simp [filterQ5_sat]
    norm_num
  · rw [runThrough_6]
    simp
  · rw [runThrough_10]
    simp
  · rw [runThrough_10]
    simp [step11, updateOne, filterQ10_sat]
  · rw [runThrough_11, runThrough_10]

/-- C2: on the run from the seed, the final collection (the state after the last step,
which the final read prints) consists of exactly the seven records B002, B003, B004,
B005, B006, B007 and B009 with the stated prices and in_stock values, and every title,
author and category is the seeded one. -/
theorem C2_final_collection (prior : Collection) :
    runThrough 12 prior =
      [ ⟨"B002", "Learning MongoDB", "Jane Doe", "Technology", 35.99, false⟩,
        ⟨"B003", "Web Development with JavaScript", "Mark Lee", "Programming", 50, true⟩,
        ⟨"B004", "Introduction to Python", "Alice Brown", "Programming", 50, true⟩,
        ⟨"B005", "Advanced SQL Queries", "Michael White", "Database", 40, true⟩,
        ⟨"B006", "C++ Basics", "John Smith", "Programming", 50, true⟩,
        ⟨"B007", "Machine Learning with Python", "Sara Green", "Technology", 39.99, false⟩,
        ⟨"B009", "Data Structures in Java", "Lucas Blue", "Programming", 50, true⟩ ] ∧
    step12 (runThrough 11 prior) = runThrough 12 prior ∧
    (runThrough 12 prior).length = 7 ∧
    (∀ b ∈ runThrough 12 prior, ∃ s ∈ seed, s.book_id = b.book_id ∧ s.title = b.title ∧
      s.author = b.author ∧ s.category = b.category) := by
  refine ⟨runThrough_12 prior, ?_, ?_, ?_⟩
  · rw [runThrough_12, runThrough_11]
    simp [step12, find, Filter.sat, Filter.satAll]
  · rw [runThrough_12]
    rfl
  · rw [runThrough_12]
    simp [seed]

/-- C3, as stated, fails: on the run from the seed the collection after step 11 holds no
record with book_id B010, title AI Revolution and price 69.99 * 0.9. -/
theorem C3_no_B010_after_step11 :
    ¬ ∃ b ∈ runThrough 11 [], b.book_id = "B010" ∧ b.title = "AI Revolution" ∧
      b.price = 69.99 * 0.9 := by
  rw [runThrough_11]
  simp

/-- C3, amended: on the run from the seed the record B010 keeps its price 69.99 as long
as it exists (after each of steps 1 to 5), step 6 deletes it, so the collection holds no
B010 record after any of steps 6 to 12; step 11 itself, applied to a collection that
still holds the seeded B010 record (the seed, or the state after step 5), sets that
record to title AI Revolution and price 69.99 * 0.9 and changes nothing else. -/
theorem C3_step11_on_seeded_B010 (prior : Collection) :
    (∀ k, 1 ≤ k → k ≤ 5 → (∃ b ∈ runThrough k prior, b.book_id = "B010") ∧
      ∀ b ∈ runThrough k prior, b.book_id = "B010" → b.price = 69.99) ∧
    (∀ k, 6 ≤ k → k ≤ 12 → ∀ b ∈ runThrough k prior, b.book_id ≠ "B010") ∧
    step11 seed =
      [ ⟨"B001", "Data Science Fundamentals", "John Smith", "Technology", 29.99, true⟩,
        ⟨"B002", "Learning MongoDB", "Jane Doe", "Technology", 35.99, false⟩,
        ⟨"B003", "Web Development with JavaScript", "Mark Lee", "Programming", 24.99, true⟩,
        ⟨"B004", "Introduction to Python", "Alice Brown", "Programming", 19.99, true⟩,
        ⟨"B005", "Advanced SQL Queries", "Michael White", "Database", 45.99, true⟩,
        ⟨"B006", "C++ Basics", "John Smith", "Programming", 29.99, true⟩,
        ⟨"B007", "Machine Learning with Python", "Sara Green", "Technology", 39.99, true⟩,
        ⟨"B008", "Deep Learning Essentials", "David Grey", "Technology", 59.99, false⟩,
        ⟨"B009", "Data Structures in Java", "Lucas Blue", "Programming", 49.99, true⟩,
        ⟨"B010", "AI Revolution", "Sophia Grey", "Technology", 69.99 * 0.9, true⟩ ] ∧
    step11 (runThrough 5 prior) =
      [ ⟨"B001", "Data Science Fundamentals", "John Smith", "Technology", 29.99, false⟩,
        ⟨"B002", "Learning MongoDB", "Jane Doe", "Technology", 35.99, false⟩,
        ⟨"B003", "Web Development with JavaScript", "Mark Lee", "Programming", 24.99, true⟩,
        ⟨"B004", "Introduction to Python", "Alice Brown", "Programming", 19.99, true⟩,
        ⟨"B005", "Advanced SQL Queries", "Michael White", "Database", 45.99, true⟩,
        ⟨"B006", "C++ Basics", "John Smith", "Programming", 29.99, true⟩,
        ⟨"B007", "Machine Learning with Python", "Sara Green", "Technology", 39.99, false⟩,
        ⟨"B009", "Data Structures in Java", "Lucas Blue", "Programming", 49.99, true⟩,
        ⟨"B010", "AI Revolution", "Sophia Grey", "Technology", 69.99 * 0.9, true⟩ ] := by
  refine ⟨?_, ?_, ?_, ?_⟩
  · intro k h1 h5
    interval_cases k
    · rw [runThrough_1]
      simp [seed]
    · rw [runThrough_2]
      simp
    · rw [runThrough_3]
      simp
    · rw [runThrough_4]
      simp
    · rw [runThrough_5]
      simp
  · intro k h6 h12
    interval_cases k
    · rw [runThrough_6]
      simp
    · rw [runThrough_7]
      simp
    · rw [runThrough_8]
      simp
    · rw [runThrough_9]
      simp
    · rw [runThrough_10]
      simp
    · rw [runThrough_11]
      simp
    · rw [runThrough_12]
      simp
  · simp [step11, updateOne, filterQ10_sat, seed, pipelineQ10, applyPipeline, applyStage,
      applySet, Assign.apply, PAssign.toAssign, NumExpr.eval]
  · rw [runThrough_5]
    simp [step11, updateOne, filterQ10_sat, pipelineQ10, applyPipeline, applyStage,
      applySet, Assign.apply, PAssign.toAssign, NumExpr.eval]

/-- C4: for every collection, step 6 yields exactly the records that do not satisfy
(category = Programming and in_stock = false) or price > 50, unchanged and in their
original order: the result is a single filter of the input collection. -/
theorem C4_step6_is_filter (c : Collection) :
    step6 c = c.filter (fun b =>
      !decide ((b.category = "Programming" ∧ b.in_stock = false) ∨ 50 < b.price)) ∧
    (step6 c).Sublist c ∧
    (∀ b, b ∈ step6 c ↔
      b ∈ c ∧ ¬ ((b.category = "Programming" ∧ b.in_stock = false) ∨ 50 < b.price)) := by
  have h : step6 c = c.filter (fun b =>
      !decide ((b.category = "Programming" ∧ b.in_stock = false) ∨ 50 < b.price)) := by
    simp only [step6, deleteMany_eq_filter, filterQ5_sat]
  refine ⟨h, ?_, ?_⟩
  · rw [h]
    exact List.filter_sublist c
  · intro b
    rw [h, List.mem_filter]
    simp only [Bool.not_eq_true', decide_eq_false_iff_not]

/-- C5: for every collection, the result of step 5 is sorted non-increasing by price,
each of its elements satisfies category = Programming, price > 25 and in_stock = true,
and it is a permutation of the records of the collection that satisfy this; on the run
from the seed the result is B009 (49.99) followed by B006 (29.99). -/
theorem C5_step5_sorted_filter (c : Collection) :
    (step5 c).Pairwise (fun a b => b.price ≤ a.price) ∧
    (∀ b ∈ step5 c, b.category = "Programming" ∧ 25 < b.price ∧ b.in_stock = true) ∧
    (step5 c).Perm (c.filter (fun b =>
      decide (b.category = "Programming" ∧ 25 < b.price ∧ b.in_stock = true))) ∧
    (∀ prior, step5 (runThrough 4 prior) =
      [ ⟨"B009", "Data Structures in Java", "Lucas Blue", "Programming", 49.99, true⟩,
        ⟨"B006", "C++ Basics", "John Smith", "Programming", 29.99, true⟩ ]) := by
  have hperm : (step5 c).Perm (c.filter (fun b =>
      decide (b.category = "Programming" ∧ 25 < b.price ∧ b.in_stock = true))) := by
    have h := sort_perm (-1) (find filterQ4 c)
    simpa only [step5, find, filterQ4_sat] using h
  refine ⟨?_, ?_, hperm, ?_⟩
  · have h := sort_pairwise (-1) (find filterQ4 c)
    refine List.Pairwise.imp ?_ h
    intro a b hab
    simpa [priceOrder] using hab
  · intro b hb
    have hmem := hperm.mem_iff.mp hb
    rw [List.mem_filter] at hmem
    simpa using hmem.2
  · intro prior
    rw [runThrough_4]
    norm_num [step5, find, filterQ4_sat, List.filter_cons]
    simp [sort, sortInsert, priceOrder]
    norm_num

/-- C6: for every collection, step 2 maps each record with category = Technology and
price < 40 to the same record with in_stock = false (its other five fields, the price
among them, unchanged), leaves every other record as it was, and neither adds nor
removes a record: the record at each position of the result is the image of the record
at that position of the input. -/
theorem C6_step2_sets_in_stock (col : Collection) :
    step2 col = col.map (fun b =>
      if b.category = "Technology" ∧ b.price < 40 then { b with in_stock := false } else b) ∧
    (step2 col).length = col.length ∧
    (∀ (i : Nat) (b : Book), col[i]? = some b →
      ∃ r, (step2 col)[i]? = some r ∧
        ((b.category = "Technology" ∧ b.price < 40) →
          r.in_stock = false ∧ r.book_id = b.book_id ∧ r.title = b.title ∧
          r.author = b.author ∧ r.category = b.category ∧ r.price = b.price) ∧
        (¬ (b.category = "Technology" ∧ b.price < 40) → r = b)) := by
  have h : step2 col = col.map (fun b =>
      if b.category = "Technology" ∧ b.price < 40 then { b with in_stock := false }
      else b) := by
    simp only [step2, updateMany, filterQ1_sat, applySet, List.foldl, Assign.apply,
      decide_eq_true_eq]
  refine ⟨h, ?_, ?_⟩
  · rw [h, List.length_map]
  · intro i b hb
    rw [h, List.getElem?_map, hb]
    refine ⟨_, rfl, ?_, ?_⟩
    · intro hm
      simp only [if_pos hm, and_self]
    · intro hm
      simp only [if_neg hm]

/-- C7: for every collection with unique book_id values and every record of it with
book_id B008: if that record has in_stock = false, no record with book_id B008 exists
after step 3; if it has in_stock = true, it still exists after step 3 and the step
changes nothing. -/
theorem C7_step3_unique_ids (c : Collection) (hu : (c.map Book.book_id).Nodup)
    (b : Book) (hb : b ∈ c) (hid : b.book_id = "B008") :
    (b.in_stock = false → ∀ x ∈ step3 c, x.book_id ≠ "B008") ∧
    (b.in_stock = true → b ∈ step3 c ∧ step3 c = c) := by
  constructor
  · intro hs
    have hex : ∃ x ∈ c, filterQ2.sat x = true :=
      ⟨b, hb, by simp [filterQ2_sat, hid, hs]⟩
    obtain ⟨pre, m, post, hc, _, hm, hdel⟩ := deleteOne_split filterQ2 c hex
    have hmid : m.book_id = "B008" := by
      rw [filterQ2_sat] at hm
      exact (of_decide_eq_true hm).1
    intro x hx
    have hx2 : x ∈ pre ++ post := by
      rw [← hdel]
      exact hx
    rw [hc, List.map_append, List.map_cons] at hu
    have hnot : m.book_id ∉ pre.map Book.book_id ++ post.map Book.book_id := by
      exact (List.nodup_cons.mp (List.nodup_middle.mp hu)).1
    intro hxid
    apply hnot
    rw [hmid, ← hxid, ← List.map_append]
    exact List.mem_map_of_mem Book.book_id hx2
  · intro hs
    have hnone : ∀ x ∈ c, filterQ2.sat x = false := by
      intro x hx
      rw [filterQ2_sat]
      apply decide_eq_false
      rintro ⟨hxid, hxs⟩
      have hxb : x = b :=
        List.inj_on_of_nodup_map hu hx hb (hxid.trans hid.symm)
      rw [hxb, hs] at hxs
      cases hxs
    have hsame : step3 c = c := deleteOne_of_none filterQ2 c hnone
    exact ⟨by rw [hsame]; exact hb, hsame⟩

/-- Witness of C7: on the seed, whose B008 record is out of stock, no B008 record is
left; on a one-record collection whose B008 record is in stock, nothing changes. -/
theorem C7_step3_unique_ids_witness :
    (∀ x ∈ step3 seed, x.book_id ≠ "B008") ∧
    step3 [⟨"B008", "Deep Learning Essentials", "David Grey", "Technology", 59.99, true⟩] =
      [⟨"B008", "Deep Learning Essentials", "David Grey", "Technology", 59.99, true⟩] :=
  ⟨(C7_step3_unique_ids seed (by simp [seed])
      ⟨"B008", "Deep Learning Essentials", "David Grey", "Technology", 59.99, false⟩
      (by simp [seed]) rfl).1 rfl,
   ((C7_step3_unique_ids
      [⟨"B008", "Deep Learning Essentials", "David Grey", "Technology", 59.99, true⟩]
      (by simp)
      ⟨"B008", "Deep Learning Essentials", "David Grey", "Technology", 59.99, true⟩
      (by simp) rfl).2 rfl).2⟩

/-- C8: for every collection, unique book_id values or not, step 3 removes at most one
record: if some record has book_id = B008 and in_stock = false, one such record (the
first) is removed and the others stay, unchanged and in order; if none has, the
collection is unchanged. -/
theorem C8_step3_removes_at_most_one (c : Collection) :
    ((∃ b ∈ c, b.book_id = "B008" ∧ b.in_stock = false) →
      ∃ pre m post, c = pre ++ m :: post ∧ m.book_id = "B008" ∧ m.in_stock = false ∧
        (∀ x ∈ pre, ¬ (x.book_id = "B008" ∧ x.in_stock = false)) ∧
        step3 c = pre ++ post) ∧
    ((¬ ∃ b ∈ c, b.book_id = "B008" ∧ b.in_stock = false) → step3 c = c) ∧
    c.length ≤ (step3 c).length + 1 ∧
    (step3 c).Sublist c := by
  have hcases : (∃ b ∈ c, b.book_id = "B008" ∧ b.in_stock = false) →
      ∃ pre m post, c = pre ++ m :: post ∧ m.book_id = "B008" ∧ m.in_stock = false ∧
        (∀ x ∈ pre, ¬ (x.book_id = "B008" ∧ x.in_stock = false)) ∧
        step3 c = pre ++ post := by
    rintro ⟨b, hb, hid, hs⟩
    have hex : ∃ x ∈ c, filterQ2.sat x = true :=
      ⟨b, hb, by simp [filterQ2_sat, hid, hs]⟩
    obtain ⟨pre, m, post, hc, hpre, hm, hdel⟩ := deleteOne_split filterQ2 c hex
    rw [filterQ2_sat] at hm
    refine ⟨pre, m, post, hc, (of_decide_eq_true hm).1, (of_decide_eq_true hm).2, ?_, hdel⟩
    intro x hx
    have h := hpre x hx
    rw [filterQ2_sat] at h
    exact of_decide_eq_false h
  have hnone : (¬ ∃ b ∈ c, b.book_id = "B008" ∧ b.in_stock = false) → step3 c = c := by
    intro hno
    apply deleteOne_of_none
    intro x hx
    rw [filterQ2_sat]
    apply decide_eq_false
    intro hx2
    exact hno ⟨x, hx, hx2⟩
  refine ⟨hcases, hnone, ?_, ?_⟩
  · by_cases hex : ∃ b ∈ c, b.book_id = "B008" ∧ b.in_stock = false
    · obtain ⟨pre, m, post, hc, _, _, _, hdel⟩ := hcases hex
      rw [hdel, hc]
      simp only [List.length_append, List.length_cons]
      omega
    · rw [hnone hex]
      omega
  · by_cases hex : ∃ b ∈ c, b.book_id = "B008" ∧ b.in_stock = false
    · obtain ⟨pre, m, post, hc, _, _, _, hdel⟩ := hcases hex
      rw [hdel, hc]
      exact List.Sublist.append (List.Sublist.refl pre) (List.sublist_cons_self m post)
    · rw [hnone hex]

/-- Witness of C8: of two out-of-stock records with book_id B008, step 3 removes the
first and keeps the second. -/
theorem C8_step3_removes_at_most_one_witness :
    ∃ pre m post,
      [(⟨"B008", "first", "x", "Technology", 1, false⟩ : Book),
        ⟨"B008", "second", "y", "Technology", 2, false⟩] = pre ++ m :: post ∧
      m.book_id = "B008" ∧ m.in_stock = false ∧
      (∀ x ∈ pre, ¬ (x.book_id = "B008" ∧ x.in_stock = false)) ∧
      step3 [⟨"B008", "first", "x", "Technology", 1, false⟩,
        ⟨"B008", "second", "y", "Technology", 2, false⟩] = pre ++ post :=
  (C8_step3_removes_at_most_one
    [⟨"B008", "first", "x", "Technology", 1, false⟩,
      ⟨"B008", "second", "y", "Technology", 2, false⟩]).1
    ⟨⟨"B008", "first", "x", "Technology", 1, false⟩, by simp, rfl, rfl⟩

/-- C9: for every collection, the result of step 8 is exactly the records satisfying
(author = Jane Doe or category = Database) and 30 <= price <= 60, both bounds
inclusive, so a record priced exactly 30 or exactly 60 that meets the author or category
condition is in the result; on the run from the seed, on the state after step 7, the
result is exactly B002 (price 35.99) and B005 (price 40). -/
theorem C9_step8_inclusive_range (c : Collection) :
    step8 c = c.filter (fun b =>
      decide ((b.author = "Jane Doe" ∨ b.category = "Database") ∧
        30 ≤ b.price ∧ b.price ≤ 60)) ∧
    (∀ b, b ∈ step8 c ↔ b ∈ c ∧ (b.author = "Jane Doe" ∨ b.category = "Database") ∧
      30 ≤ b.price ∧ b.price ≤ 60) ∧
    (∀ b ∈ c, (b.author = "Jane Doe" ∨ b.category = "Database") →
      (b.price = 30 ∨ b.price = 60) → b ∈ step8 c) ∧
    (∀ prior, step8 (runThrough 7 prior) =
      [ ⟨"B002", "Learning MongoDB", "Jane Doe", "Technology", 35.99, false⟩,
        ⟨"B005", "Advanced SQL Queries", "Michael White", "Database", 40, true⟩ ]) := by
  have h : step8 c = c.filter (fun b =>
      decide ((b.author = "Jane Doe" ∨ b.category = "Database") ∧
        30 ≤ b.price ∧ b.price ≤ 60)) := by
    simp only [step8, find, filterQ7_sat]
  have hmem : ∀ b, b ∈ step8 c ↔ b ∈ c ∧ (b.author = "Jane Doe" ∨ b.category = "Database") ∧
      30 ≤ b.price ∧ b.price ≤ 60 := by
    intro b
    rw [h, List.mem_filter, decide_eq_true_eq]
  refine ⟨h, hmem, ?_, ?_⟩
  · intro b hb hac hp
    rw [hmem]
    refine ⟨hb, hac, ?_⟩
    rcases hp with hp | hp <;> rw [hp] <;> norm_num
  · intro prior
    rw [runThrough_7]
    norm_num [step8, find, filterQ7_sat, List.filter_cons]
    simp

/-- C10: for every collection, step 9 maps each record with category = Programming,
in_stock = true and price < 50 to the same record with price = 50 (its other five
fields unchanged) and leaves every other record as it was. -/
theorem C10_step9_raises_price (col : Collection) :
    step9 col = col.map (fun b =>
      if b.category = "Programming" ∧ b.in_stock = true ∧ b.price < 50
      then { b with price := 50 } else b) ∧
    (step9 col).length = col.length ∧
    (∀ (i : Nat) (b : Book), col[i]? = some b →
      ∃ r, (step9 col)[i]? = some r ∧
        ((b.category = "Programming" ∧ b.in_stock = true ∧ b.price < 50) →
          r.price = 50 ∧ r.book_id = b.book_id ∧ r.title = b.title ∧
          r.author = b.author ∧ r.category = b.category ∧ r.in_stock = b.in_stock) ∧
        (¬ (b.category = "Programming" ∧ b.in_stock = true ∧ b.price < 50) → r = b)) := by
  have h : step9 col = col.map (fun b =>
      if b.category = "Programming" ∧ b.in_stock = true ∧ b.price < 50
      then { b with price := 50 } else b) := by
    simp only [step9, updateMany, filterQ8_sat, applySet, List.foldl, Assign.apply,
      decide_eq_true_eq]
  refine ⟨h, ?_, ?_⟩
  · rw [h, List.length_map]
  · intro i b hb
    rw [h, List.getElem?_map, hb]
    refine ⟨_, rfl, ?_, ?_⟩
    · intro hm
      simp only [if_pos hm, and_self]
    · intro hm
      simp only [if_neg hm]

/-! ## Further facts about the queries and the shell calls -/

theorem filterTrailing_sat (b : Book) :
    filterTrailing.sat b = decide ((b.author = "Jane Doe" ∨ b.category = "Database") ∧
      30 < b.price ∧ b.price < 60) := by
  simp [filterTrailing, Filter.sat, Filter.satAll, Filter.satAny, Cond.holds, Book.get]

theorem pipelineQ10_apply (b : Book) :
    applyPipeline pipelineQ10 b = { b with title := "AI Revolution", price := b.price * 0.9 } :=
  rfl

theorem deleteOne_sublist (q : Filter) (c : Collection) : (deleteOne q c).Sublist c := by
  induction c with
  | nil => exact List.Sublist.refl _
  | cons b bs ih =>
    cases h : q.sat b with
    | true =>
      simp only [deleteOne, h, if_true]
      exact List.sublist_cons_self b bs
    | false =>
      simp only [deleteOne, h, Bool.false_eq_true, if_false]
      exact List.Sublist.cons₂ b ih

theorem deleteMany_sublist (q : Filter) (c : Collection) : (deleteMany q c).Sublist c := by
  rw [deleteMany_eq_filter]
  exact List.filter_sublist c

theorem updateOne_split (q : Filter) (stages : List (List PAssign)) (c : Collection)
    (h : ∃ b ∈ c, q.sat b = true) :
    ∃ pre m post, c = pre ++ m :: post ∧ (∀ x ∈ pre, q.sat x = false) ∧
      q.sat m = true ∧ updateOne q stages c = pre ++ applyPipeline stages m :: post := by
  induction c with
  | nil =>
    obtain ⟨b, hb, _⟩ := h
    cases hb
  | cons a as ih =>
    cases ha : q.sat a with
    | true =>
      exact ⟨[], a, as, rfl, by simp, ha, by simp [updateOne, ha]⟩
    | false =>
      have hex : ∃ b ∈ as, q.sat b = true := by
        obtain ⟨b, hb, hsat⟩ := h
        rcases List.mem_cons.mp hb with rfl | hmem
        · rw [ha] at hsat
          cases hsat
        · exact ⟨b, hmem, hsat⟩
      obtain ⟨pre, m, post, hc, hpre, hm, hupd⟩ := ih hex
      refine ⟨a :: pre, m, post, by simp [hc], ?_, hm, by simp [updateOne, ha, hupd]⟩
      intro x hx
      rcases List.mem_cons.mp hx with rfl | hmem
      · exact ha
      · exact hpre x hmem

theorem updateOne_mem (q : Filter) (stages : List (List PAssign)) (c : Collection)
    (x : Book) (hx : x ∈ updateOne q stages c) :
    x ∈ c ∨ ∃ m ∈ c, x = applyPipeline stages m := by
  induction c with
  | nil => cases hx
  | cons a as ih =>
    cases ha : q.sat a with
    | true =>
      simp only [updateOne, ha, if_true] at hx
      rcases List.mem_cons.mp hx with rfl | hmem
      · exact Or.inr ⟨a, List.mem_cons_self a as, rfl⟩
      · exact Or.inl (List.mem_cons_of_mem a hmem)
    | false =>
      simp only [updateOne, ha, Bool.false_eq_true, if_false] at hx
      rcases List.mem_cons.mp hx with rfl | hmem
      · exact Or.inl (List.mem_cons_self _ as)
      · rcases ih hmem with h1 | ⟨m, hm, hxm⟩
        · exact Or.inl (List.mem_cons_of_mem a h1)
        · exact Or.inr ⟨m, List.mem_cons_of_mem a hm, hxm⟩

theorem updateOne_ids (q : Filter) (stages : List (List PAssign)) (c : Collection)
    (hid : ∀ b, (applyPipeline stages b).book_id = b.book_id) :
    (updateOne q stages c).map Book.book_id = c.map Book.book_id := by
  induction c with
  | nil => rfl
  | cons a as ih =>
    cases ha : q.sat a <;> simp [updateOne, ha, ih, hid]

theorem updateMany_ids (q : Filter) (u : List Assign) (c : Collection)
    (hid : ∀ b, (applySet u b).book_id = b.book_id) :
    (updateMany q u c).map Book.book_id = c.map Book.book_id := by
  unfold updateMany
  rw [List.map_map]
  apply List.map_congr_left
  intro b _
  cases hb : q.sat b <;> simp [hb, hid]

theorem updateMany_mem (q : Filter) (u : List Assign) (c : Collection)
    (x : Book) (hx : x ∈ updateMany q u c) :
    x ∈ c ∨ ∃ m ∈ c, x = applySet u m := by
  unfold updateMany at hx
  obtain ⟨m, hm, hxm⟩ := List.mem_map.mp hx
  cases hs : q.sat m with
  | true =>
    rw [hs, if_pos rfl] at hxm
    exact Or.inr ⟨m, hm, hxm.symm⟩
  | false =>
    simp only [hs, Bool.false_eq_true, if_false] at hxm
    rw [← hxm]
    exact Or.inl hm

theorem updateMany_of_none (q : Filter) (u : List Assign) (c : Collection)
    (h : ∀ b ∈ c, q.sat b = false) : updateMany q u c = c := by
  unfold updateMany
  conv_rhs => rw [← List.map_id c]
  apply List.map_congr_left
  intro b hb
  simp [h b hb]

theorem deleteMany_of_none (q : Filter) (c : Collection)
    (h : ∀ b ∈ c, q.sat b = false) : deleteMany q c = c := by
  rw [deleteMany_eq_filter]
  apply List.filter_eq_self.mpr
  intro b hb
  simp [h b hb]

/-- C11: for every collection, step 7 maps each record whose book_id is B005 or B006 to
the same record with price = 40 and in_stock = true (book_id, title, author and category
unchanged) and leaves every record with another book_id as it was; the list of book_id
values is the same before and after, so no record is created, and a collection holding
neither B005 nor B006 is returned unchanged. -/
theorem C11_step7_targets_B005_B006 (col : Collection) :
    step7 col = col.map (fun b =>
      if b.book_id = "B005" ∨ b.book_id = "B006"
      then { b with price := 40, in_stock := true } else b) ∧
    (step7 col).length = col.length ∧
    (step7 col).map Book.book_id = col.map Book.book_id ∧
    (∀ (i : Nat) (b : Book), col[i]? = some b →
      ∃ r, (step7 col)[i]? = some r ∧
        ((b.book_id = "B005" ∨ b.book_id = "B006") →
          r.price = 40 ∧ r.in_stock = true ∧ r.book_id = b.book_id ∧ r.title = b.title ∧
          r.author = b.author ∧ r.category = b.category) ∧
        (¬ (b.book_id = "B005" ∨ b.book_id = "B006") → r = b)) ∧
    ((∀ b ∈ col, b.book_id ≠ "B005" ∧ b.book_id ≠ "B006") → step7 col = col) := by
  have h : step7 col = col.map (fun b =>
      if b.book_id = "B005" ∨ b.book_id = "B006"
      then { b with price := 40, in_stock := true } else b) := by
    simp only [step7, updateMany, filterQ6_sat, applySet, List.foldl, Assign.apply,
      decide_eq_true_eq]
  refine ⟨h, ?_, ?_, ?_, ?_⟩
  · rw [h, List.length_map]
  · exact updateMany_ids filterQ6 _ col (fun b => rfl)
  · intro i b hb
    rw [h, List.getElem?_map, hb]
    refine ⟨_, rfl, ?_, ?_⟩
    · intro hm
      simp only [if_pos hm, and_self]
    · intro hm
      simp only [if_neg hm]
  · intro hno
    apply updateMany_of_none
    intro b hb
    rw [filterQ6_sat]
    apply decide_eq_false
    rintro (h5 | h6)
    · exact (hno b hb).1 h5
    · exact (hno b hb).2 h6

/-- C12: for every collection, after step 10 no record satisfies category = Technology,
price < 30 and in_stock = false, and every record that did not satisfy it before the
step is still there, unchanged, as often as before and in the same order: the result is
the input filtered by the negated predicate. -/
theorem C12_step10_deletes_all_matching (c : Collection) :
    step10 c = c.filter (fun b =>
      !decide (b.category = "Technology" ∧ b.price < 30 ∧ b.in_stock = false)) ∧
    (∀ b ∈ step10 c, ¬ (b.category = "Technology" ∧ b.price < 30 ∧ b.in_stock = false)) ∧
    (∀ b ∈ c, ¬ (b.category = "Technology" ∧ b.price < 30 ∧ b.in_stock = false) →
      b ∈ step10 c ∧ (step10 c).count b = c.count b) ∧
    (step10 c).Sublist c := by
  have h : step10 c = c.filter (fun b =>
      !decide (b.category = "Technology" ∧ b.price < 30 ∧ b.in_stock = false)) := by
    simp only [step10, deleteMany_eq_filter, filterQ9_sat]
  refine ⟨h, ?_, ?_, ?_⟩
  · intro b hb
    rw [h, List.mem_filter] at hb
    simpa only [Bool.not_eq_true', decide_eq_false_iff_not] using hb.2
  · intro b hb hnot
    have hp : (!decide (b.category = "Technology" ∧ b.price < 30 ∧ b.in_stock = false))
        = true := by
      simpa only [Bool.not_eq_true', decide_eq_false_iff_not] using hnot
    constructor
    · rw [h, List.mem_filter]
      exact ⟨hb, hp⟩
    · rw [h]
      exact List.count_filter hp
  · exact deleteMany_sublist filterQ9 c

/-- C14: for every collection, step 4 maps each record with author = John Smith,
category = Technology, price > 20 and in_stock = true to the same record with
price = 35 (its other five fields unchanged) and leaves every other record as it was. -/
theorem C14_step4_sets_price_35 (col : Collection) :
    step4 col = col.map (fun b =>
      if b.author = "John Smith" ∧ b.category = "Technology" ∧ 20 < b.price ∧
        b.in_stock = true
      then { b with price := 35 } else b) ∧
    (step4 col).length = col.length ∧
    (∀ (i : Nat) (b : Book), col[i]? = some b →
      ∃ r, (step4 col)[i]? = some r ∧
        ((b.author = "John Smith" ∧ b.category = "Technology" ∧ 20 < b.price ∧
            b.in_stock = true) →
          r.price = 35 ∧ r.book_id = b.book_id ∧ r.title = b.title ∧
          r.author = b.author ∧ r.category = b.category ∧ r.in_stock = b.in_stock) ∧
        (¬ (b.author = "John Smith" ∧ b.category = "Technology" ∧ 20 < b.price ∧
            b.in_stock = true) → r = b)) := by
  have h : step4 col = col.map (fun b =>
      if b.author = "John Smith" ∧ b.category = "Technology" ∧ 20 < b.price ∧
        b.in_stock = true
      then { b with price := 35 } else b) := by
    simp only [step4, updateMany, filterQ3_sat, applySet, List.foldl, Assign.apply,
      decide_eq_true_eq]
  refine ⟨h, ?_, ?_⟩
  · rw [h, List.length_map]
  · intro i b hb
    rw [h, List.getElem?_map, hb]
    refine ⟨_, rfl, ?_, ?_⟩
    · intro hm
      simp only [if_pos hm, and_self]
    · intro hm
      simp only [if_neg hm]

/-! ## Invariants of the steps -/

theorem updateMany_nonneg (q : Filter) (u : List Assign) (c : Collection)
    (hu : ∀ b : Book, 0 ≤ b.price → 0 ≤ (applySet u b).price)
    (h : ∀ b ∈ c, 0 ≤ b.price) : ∀ b ∈ updateMany q u c, 0 ≤ b.price := by
  intro b hb
  rcases updateMany_mem q u c b hb with hmem | ⟨m, hm, rfl⟩
  · exact h b hmem
  · exact hu m (h m hm)

theorem sublist_nonneg (c d : Collection) (hs : d.Sublist c)
    (h : ∀ b ∈ c, 0 ≤ b.price) : ∀ b ∈ d, 0 ≤ b.price :=
  fun b hb => h b (hs.subset hb)

theorem step11_nonneg (c : Collection) (h : ∀ b ∈ c, 0 ≤ b.price) :
    ∀ b ∈ step11 c, 0 ≤ b.price := by
  intro b hb
  rcases updateOne_mem filterQ10 pipelineQ10 c b hb with hmem | ⟨m, hm, rfl⟩
  · exact h b hmem
  · rw [pipelineQ10_apply]
    show 0 ≤ m.price * 0.9
    exact mul_nonneg (h m hm) (by norm_num)

theorem seed_nonneg : ∀ b ∈ seed, 0 ≤ b.price := by
  intro b hb
  simp only [seed, List.mem_cons, List.mem_singleton, List.not_mem_nil, or_false] at hb
  rcases hb with rfl | rfl | rfl | rfl | rfl | rfl | rfl | rfl | rfl | rfl <;> norm_num

theorem applyStep_nonneg (k : Nat) (c : Collection) (h : ∀ b ∈ c, 0 ≤ b.price) :
    ∀ b ∈ applyStep k c, 0 ≤ b.price := by
  unfold applyStep
  split
  · exact seed_nonneg
  · exact updateMany_nonneg filterQ1 _ c (fun b hb => hb) h
  · exact sublist_nonneg c _ (deleteOne_sublist filterQ2 c) h
  · exact updateMany_nonneg filterQ3 _ c (fun b _ => by
      show (0 : ℚ) ≤ 35
      norm_num) h
  · exact sublist_nonneg c _ (deleteMany_sublist filterQ5 c) h
  · exact updateMany_nonneg filterQ6 _ c (fun b _ => by
      show (0 : ℚ) ≤ 40
      norm_num) h
  · exact updateMany_nonneg filterQ8 _ c (fun b _ => by
      show (0 : ℚ) ≤ 50
      norm_num) h
  · exact sublist_nonneg c _ (deleteMany_sublist filterQ9 c) h
  · exact step11_nonneg c h
  · exact h

theorem runThrough_nonneg (prior : Collection) (n : Nat) (hn : 1 ≤ n) :
    ∀ b ∈ runThrough n prior, 0 ≤ b.price := by
  induction n with
  | zero => omega
  | succ m ih =>
    rcases Nat.eq_zero_or_pos m with rfl | hpos
    · rw [runThrough_1]
      exact seed_nonneg
    · exact applyStep_nonneg (m + 1) (runThrough m prior) (ih hpos)

theorem step2_ids (c : Collection) : (step2 c).map Book.book_id = c.map Book.book_id :=
  updateMany_ids filterQ1 [.in_stock false] c (fun _ => rfl)

theorem step4_ids (c : Collection) : (step4 c).map Book.book_id = c.map Book.book_id :=
  updateMany_ids filterQ3 [.price 35] c (fun _ => rfl)

theorem step7_ids (c : Collection) : (step7 c).map Book.book_id = c.map Book.book_id :=
  updateMany_ids filterQ6 [.price 40, .in_stock true] c (fun _ => rfl)

theorem step9_ids (c : Collection) : (step9 c).map Book.book_id = c.map Book.book_id :=
  updateMany_ids filterQ8 [.price 50] c (fun _ => rfl)

theorem step11_ids (c : Collection) : (step11 c).map Book.book_id = c.map Book.book_id :=
  updateOne_ids filterQ10 pipelineQ10 c (fun _ => rfl)

theorem applyStep_ids_sublist (k : Nat) (hk : k ≠ 1) (c : Collection) :
    ((applyStep k c).map Book.book_id).Sublist (c.map Book.book_id) := by
  unfold applyStep
  split
  · exact absurd rfl hk
  · rw [step2_ids]
  · exact (deleteOne_sublist filterQ2 c).map Book.book_id
  · rw [step4_ids]
  · exact (deleteMany_sublist filterQ5 c).map Book.book_id
  · rw [step7_ids]
  · rw [step9_ids]
  · exact (deleteMany_sublist filterQ9 c).map Book.book_id
  · rw [step11_ids]
  · exact List.Sublist.refl _

theorem runThrough_ids_sublist (prior : Collection) (n : Nat) (hn : 1 ≤ n) :
    ((runThrough n prior).map Book.book_id).Sublist (seed.map Book.book_id) := by
  induction n with
  | zero => omega
  | succ m ih =>
    rcases Nat.eq_zero_or_pos m with rfl | hpos
    · rw [runThrough_1]
    · exact (applyStep_ids_sublist (m + 1) (by omega) (runThrough m prior)).trans (ih hpos)

/-- C15: price non-negativity is an invariant: on a collection all of whose prices are
non-negative, each of the mutating steps 2, 3, 4, 6, 7, 9, 10 and 11 yields a collection
all of whose prices are non-negative; the seed has non-negative prices, so the prices
are non-negative after every step of the run of the script. -/
theorem C15_price_nonneg_invariant (c : Collection) (h : ∀ b ∈ c, 0 ≤ b.price) :
    (∀ b ∈ step2 c, 0 ≤ b.price) ∧
    (∀ b ∈ step3 c, 0 ≤ b.price) ∧
    (∀ b ∈ step4 c, 0 ≤ b.price) ∧
    (∀ b ∈ step6 c, 0 ≤ b.price) ∧
    (∀ b ∈ step7 c, 0 ≤ b.price) ∧
    (∀ b ∈ step9 c, 0 ≤ b.price) ∧
    (∀ b ∈ step10 c, 0 ≤ b.price) ∧
    (∀ b ∈ step11 c, 0 ≤ b.price) ∧
    (∀ b ∈ seed, 0 ≤ b.price) ∧
    (∀ (prior : Collection) (n : Nat), 1 ≤ n → ∀ b ∈ runThrough n prior, 0 ≤ b.price) :=
  ⟨applyStep_nonneg 2 c h, applyStep_nonneg 3 c h, applyStep_nonneg 4 c h,
    applyStep_nonneg 6 c h, applyStep_nonneg 7 c h, applyStep_nonneg 9 c h,
    applyStep_nonneg 10 c h, applyStep_nonneg 11 c h, seed_nonneg,
    fun prior n hn => runThrough_nonneg prior n hn⟩

/-- Witness of C15: the seed has non-negative prices, hence so has step 11 run on it. -/
theorem C15_price_nonneg_invariant_witness :
    (∀ b ∈ seed, 0 ≤ b.price) ∧ (∀ b ∈ step11 seed, 0 ≤ b.price) :=
  ⟨seed_nonneg, (C15_price_nonneg_invariant seed seed_nonneg).2.2.2.2.2.2.2.1⟩

/-- C16: no step after the seeding creates or renames a record: for every collection and
each of steps 2 to 11 the book_id values of the resulting collection form a sublist of
those of the input collection (the reads, steps 5 and 8, leave the collection as it is);
hence each step preserves uniqueness of book_id and never lengthens the collection, and
in every state of the run the book_id values are a sublist of the seeded B001 to B010,
in particular in the final collection. -/
theorem C16_no_record_created (c : Collection) :
    ((step2 c).map Book.book_id).Sublist (c.map Book.book_id) ∧
    ((step3 c).map Book.book_id).Sublist (c.map Book.book_id) ∧
    ((step4 c).map Book.book_id).Sublist (c.map Book.book_id) ∧
    ((step6 c).map Book.book_id).Sublist (c.map Book.book_id) ∧
    ((step7 c).map Book.book_id).Sublist (c.map Book.book_id) ∧
    ((step9 c).map Book.book_id).Sublist (c.map Book.book_id) ∧
    ((step10 c).map Book.book_id).Sublist (c.map Book.book_id) ∧
    ((step11 c).map Book.book_id).Sublist (c.map Book.book_id) ∧
    (∀ k, 2 ≤ k → k ≤ 11 →
      ((applyStep k c).map Book.book_id).Sublist (c.map Book.book_id)) ∧
    (∀ k, 2 ≤ k → k ≤ 11 → (c.map Book.book_id).Nodup →
      ((applyStep k c).map Book.book_id).Nodup) ∧
    (∀ k, 2 ≤ k → k ≤ 11 → (applyStep k c).length ≤ c.length) ∧
    (∀ (prior : Collection) (n : Nat), 1 ≤ n →
      ((runThrough n prior).map Book.book_id).Sublist (seed.map Book.book_id)) ∧
    (∀ (prior : Collection), ∀ b ∈ runThrough 12 prior,
      b.book_id ∈ ["B001", "B002", "B003", "B004", "B005", "B006", "B007", "B008", "B009",
        "B010"]) := by
  have hstep : ∀ k, 2 ≤ k → k ≤ 11 →
      ((applyStep k c).map Book.book_id).Sublist (c.map Book.book_id) :=
    fun k hk _ => applyStep_ids_sublist k (by omega) c
  refine ⟨hstep 2 (by omega) (by omega), hstep 3 (by omega) (by omega),
    hstep 4 (by omega) (by omega), hstep 6 (by omega) (by omega),
    hstep 7 (by omega) (by omega), hstep 9 (by omega) (by omega),
    hstep 10 (by omega) (by omega), hstep 11 (by omega) (by omega), hstep, ?_, ?_, ?_, ?_⟩
  · intro k h2 h11 hu
    exact hu.sublist (hstep k h2 h11)
  · intro k h2 h11
    have hlen := (hstep k h2 h11).length_le
    simpa only [List.length_map] using hlen
  · intro prior n hn
    exact runThrough_ids_sublist prior n hn
  · intro prior b hb
    have hsub := runThrough_ids_sublist prior 12 (by omega)
    exact hsub.subset (List.mem_map_of_mem Book.book_id hb)

/-! ## Stored documents: agreement with the data model, and outcomes -/

theorem toRaw_get (b : Book) (f : Field) : b.toRaw.get f = b.get f := by
  cases f <;> rfl

theorem filterQ1_satRaw_toRaw (b : Book) : filterQ1.satRaw b.toRaw = filterQ1.sat b := by
  simp [filterQ1, Filter.sat, Filter.satRaw, Filter.satAll, Filter.satAllRaw, Filter.satAny,
    Filter.satAnyRaw, toRaw_get]

theorem filterQ2_satRaw_toRaw (b : Book) : filterQ2.satRaw b.toRaw = filterQ2.sat b := by
  simp [filterQ2, Filter.sat, Filter.satRaw, Filter.satAll, Filter.satAllRaw, Filter.satAny,
    Filter.satAnyRaw, toRaw_get]

theorem filterQ3_satRaw_toRaw (b : Book) : filterQ3.satRaw b.toRaw = filterQ3.sat b := by
  simp [filterQ3, Filter.sat, Filter.satRaw, Filter.satAll, Filter.satAllRaw, Filter.satAny,
    Filter.satAnyRaw, toRaw_get]

theorem filterQ5_satRaw_toRaw (b : Book) : filterQ5.satRaw b.toRaw = filterQ5.sat b := by
  simp [filterQ5, Filter.sat, Filter.satRaw, Filter.satAll, Filter.satAllRaw, Filter.satAny,
    Filter.satAnyRaw, toRaw_get]

theorem filterQ6_satRaw_toRaw (b : Book) : filterQ6.satRaw b.toRaw = filterQ6.sat b := by
  simp [filterQ6, Filter.sat, Filter.satRaw, Filter.satAll, Filter.satAllRaw, Filter.satAny,
    Filter.satAnyRaw, toRaw_get]

theorem filterQ8_satRaw_toRaw (b : Book) : filterQ8.satRaw b.toRaw = filterQ8.sat b := by
  simp [filterQ8, Filter.sat, Filter.satRaw, Filter.satAll, Filter.satAllRaw, Filter.satAny,
    Filter.satAnyRaw, toRaw_get]

theorem filterQ9_satRaw_toRaw (b : Book) : filterQ9.satRaw b.toRaw = filterQ9.sat b := by
  simp [filterQ9, Filter.sat, Filter.satRaw, Filter.satAll, Filter.satAllRaw, Filter.satAny,
    Filter.satAnyRaw, toRaw_get]

theorem filterQ10_satRaw_toRaw (b : Book) : filterQ10.satRaw b.toRaw = filterQ10.sat b := by
  simp [filterQ10, Filter.sat, Filter.satRaw, Filter.satAll, Filter.satAllRaw, Filter.satAny,
    Filter.satAnyRaw, toRaw_get]

theorem applyRaw_toRaw (b : Book) (a : Assign) :
    Assign.applyRaw b.toRaw a = (Assign.apply b a).toRaw := by
  cases a <;> rfl

theorem applySetRaw_toRaw (u : List Assign) (b : Book) :
    applySetRaw u b.toRaw = (applySet u b).toRaw := by
  unfold applySetRaw applySet
  induction u generalizing b with
  | nil => rfl
  | cons a as ih =>
    simp only [List.foldl_cons, applyRaw_toRaw]
    exact ih (Assign.apply b a)

theorem updateManyRaw_toRaw (q : Filter) (u : List Assign) (c : Collection)
    (hq : ∀ b : Book, q.satRaw b.toRaw = q.sat b) :
    updateManyRaw q u (c.map Book.toRaw) = (updateMany q u c).map Book.toRaw := by
  unfold updateManyRaw updateMany
  rw [List.map_map, List.map_map]
  apply List.map_congr_left
  intro b _
  simp only [Function.comp_apply, hq, applySetRaw_toRaw]
  split <;> rfl

theorem deleteOneRaw_toRaw (q : Filter) (c : Collection)
    (hq : ∀ b : Book, q.satRaw b.toRaw = q.sat b) :
    deleteOneRaw q (c.map Book.toRaw) = (deleteOne q c).map Book.toRaw := by
  induction c with
  | nil => rfl
  | cons b bs ih =>
    cases h : q.sat b <;> simp [deleteOneRaw, deleteOne, hq, h, ih]

theorem deleteManyRaw_toRaw (q : Filter) (c : Collection)
    (hq : ∀ b : Book, q.satRaw b.toRaw = q.sat b) :
    deleteManyRaw q (c.map Book.toRaw) = (deleteMany q c).map Book.toRaw := by
  induction c with
  | nil => rfl
  | cons b bs ih =>
    cases h : q.sat b <;> simp [deleteManyRaw, deleteMany, hq, h, ih]

theorem pipelineQ10_applyRaw_num (d : RawBook) (p : ℚ) (hp : d.price = .num p) :
    applyPipelineRaw pipelineQ10 d =
      .ok { d with title := .str "AI Revolution", price := .num (p * 0.9) } := by
  simp [applyPipelineRaw, pipelineQ10, applyStageRaw, applyEntriesRaw, PAssign.applyRaw,
    NumExpr.evalRaw, hp]

theorem pipelineQ10_applyRaw_toRaw (b : Book) :
    applyPipelineRaw pipelineQ10 b.toRaw = .ok (applyPipeline pipelineQ10 b).toRaw := by
  rw [pipelineQ10_applyRaw_num b.toRaw b.price rfl, pipelineQ10_apply]
  rfl

theorem updateOneRaw_toRaw (q : Filter) (stages : List (List PAssign)) (c : Collection)
    (hq : ∀ b : Book, q.satRaw b.toRaw = q.sat b)
    (hp : ∀ b : Book, applyPipelineRaw stages b.toRaw = .ok (applyPipeline stages b).toRaw) :
    updateOneRaw q stages (c.map Book.toRaw) = .ok ((updateOne q stages c).map Book.toRaw) := by
  induction c with
  | nil => rfl
  | cons b bs ih =>
    have ih2 : updateOneRaw q stages (List.map Book.toRaw bs) =
        .ok ((updateOne q stages bs).map Book.toRaw) := ih
    cases h : q.sat b <;>
      simp [updateOneRaw, updateOne, hq, h, hp, ih2]

theorem updateManyRaw_of_none (q : Filter) (u : List Assign) (c : List RawBook)
    (h : ∀ d ∈ c, q.satRaw d = false) : updateManyRaw q u c = c := by
  unfold updateManyRaw
  conv_rhs => rw [← List.map_id c]
  apply List.map_congr_left
  intro d hd
  simp [h d hd]

theorem deleteOneRaw_of_none (q : Filter) (c : List RawBook)
    (h : ∀ d ∈ c, q.satRaw d = false) : deleteOneRaw q c = c := by
  induction c with
  | nil => rfl
  | cons d ds ih =>
    have hd : q.satRaw d = false := h d (List.mem_cons_self d ds)
    have hds : ∀ x ∈ ds, q.satRaw x = false := fun x hx => h x (List.mem_cons_of_mem d hx)
    simp [deleteOneRaw, hd, ih hds]

theorem deleteManyRaw_of_none (q : Filter) (c : List RawBook)
    (h : ∀ d ∈ c, q.satRaw d = false) : deleteManyRaw q c = c := by
  induction c with
  | nil => rfl
  | cons d ds ih =>
    have hd : q.satRaw d = false := h d (List.mem_cons_self d ds)
    have hds : ∀ x ∈ ds, q.satRaw x = false := fun x hx => h x (List.mem_cons_of_mem d hx)
    simp [deleteManyRaw, hd, ih hds]

theorem updateOneRaw_of_none (q : Filter) (stages : List (List PAssign)) (c : List RawBook)
    (h : ∀ d ∈ c, q.satRaw d = false) : updateOneRaw q stages c = .ok c := by
  induction c with
  | nil => rfl
  | cons d ds ih =>
    have hd : q.satRaw d = false := h d (List.mem_cons_self d ds)
    have hds : ∀ x ∈ ds, q.satRaw x = false := fun x hx => h x (List.mem_cons_of_mem d hx)
    simp [updateOneRaw, hd, ih hds]

theorem step11Raw_ok_of_numeric (c : List RawBook)
    (h : ∀ d ∈ c, filterQ10.satRaw d = true → ∃ p, d.price = .num p) :
    ∃ r, step11Raw c = .ok r := by
  unfold step11Raw
  induction c with
  | nil => exact ⟨[], rfl⟩
  | cons d ds ih =>
    cases hd : filterQ10.satRaw d with
    | true =>
      obtain ⟨p, hp⟩ := h d (List.mem_cons_self d ds) hd
      refine ⟨{ d with title := .str "AI Revolution", price := .num (p * 0.9) } :: ds, ?_⟩
      simp only [updateOneRaw, hd, if_true, pipelineQ10_applyRaw_num d p hp]
    | false =>
      have hds : ∀ x ∈ ds, filterQ10.satRaw x = true → ∃ p, x.price = .num p :=
        fun x hx => h x (List.mem_cons_of_mem d hx)
      obtain ⟨r, hr⟩ := ih hds
      exact ⟨d :: r, by simp [updateOneRaw, hd, hr]⟩

theorem toRaw_none_of_none (q : Filter) (c : Collection)
    (hq : ∀ b : Book, q.satRaw b.toRaw = q.sat b) (h : ∀ b ∈ c, q.sat b = false) :
    ∀ d ∈ c.map Book.toRaw, q.satRaw d = false := by
  intro d hd
  obtain ⟨b, hb, rfl⟩ := List.mem_map.mp hd
  rw [hq]
  exact h b hb

theorem valnum_lt (v : Value) (q : ℚ) :
    Cond.holds v (.lt q) = true ↔ ∃ p, v = .num p ∧ p < q := by
  cases v <;> simp [Cond.holds]

theorem valnum_gt (v : Value) (q : ℚ) :
    Cond.holds v (.gt q) = true ↔ ∃ p, v = .num p ∧ q < p := by
  cases v <;> simp [Cond.holds]

theorem val_eq (v w : Value) : Cond.holds v (.eq w) = true ↔ v = w := by
  simp [Cond.holds]

theorem filterQ1_satRaw (x : RawBook) :
    filterQ1.satRaw x = true ↔
      x.category = .str "Technology" ∧ ∃ p, x.price = .num p ∧ p < 40 := by
  simp [filterQ1, Filter.satRaw, Filter.satAllRaw, RawBook.get, valnum_lt, val_eq]

theorem filterQ2_satRaw (x : RawBook) :
    filterQ2.satRaw x = true ↔ x.book_id = .str "B008" ∧ x.in_stock = .bool false := by
  simp [filterQ2, Filter.satRaw, Filter.satAllRaw, RawBook.get, Cond.holds]

theorem filterQ3_satRaw (x : RawBook) :
    filterQ3.satRaw x = true ↔
      x.author = .str "John Smith" ∧ x.category = .str "Technology" ∧
      (∃ p, x.price = .num p ∧ 20 < p) ∧ x.in_stock = .bool true := by
  simp [filterQ3, Filter.satRaw, Filter.satAllRaw, RawBook.get, valnum_gt, val_eq]

theorem filterQ5_satRaw (x : RawBook) :
    filterQ5.satRaw x = true ↔
      (x.category = .str "Programming" ∧ x.in_stock = .bool false) ∨
      ∃ p, x.price = .num p ∧ 50 < p := by
  simp [filterQ5, Filter.satRaw, Filter.satAllRaw, Filter.satAnyRaw, RawBook.get, valnum_gt,
    val_eq]

theorem filterQ6_satRaw (x : RawBook) :
    filterQ6.satRaw x = true ↔ x.book_id = .str "B005" ∨ x.book_id = .str "B006" := by
  simp [filterQ6, Filter.satRaw, Filter.satAllRaw, RawBook.get, Cond.holds]

theorem filterQ8_satRaw (x : RawBook) :
    filterQ8.satRaw x = true ↔
      x.category = .str "Programming" ∧ x.in_stock = .bool true ∧
      ∃ p, x.price = .num p ∧ p < 50 := by
  simp [filterQ8, Filter.satRaw, Filter.satAllRaw, RawBook.get, valnum_lt, val_eq]

theorem filterQ9_satRaw (x : RawBook) :
    filterQ9.satRaw x = true ↔
      x.category = .str "Technology" ∧ (∃ p, x.price = .num p ∧ p < 30) ∧
      x.in_stock = .bool false := by
  simp [filterQ9, Filter.satRaw, Filter.satAllRaw, RawBook.get, valnum_lt, val_eq]

theorem filterQ10_satRaw (x : RawBook) :
    filterQ10.satRaw x = true ↔ x.book_id = .str "B010" := by
  simp [filterQ10, Filter.satRaw, Filter.satAllRaw, RawBook.get, Cond.holds]

/-- C17, as stated, fails: on a stored collection whose B010 document holds a text
instead of a number as price, step 11 does not succeed: the call ends with the error of
`$multiply`. -/
theorem C17_step11_fails_on_text_price :
    step11Raw
      [⟨.str "B010", .str "Artificial Intelligence", .str "Sophia Grey", .str "Technology",
        .str "69.99", .bool true⟩] =
      .error "$multiply only supports numeric types" := by
  simp [step11Raw, updateOneRaw, filterQ10, Filter.satRaw, Filter.satAllRaw, Cond.holds,
    RawBook.get, pipelineQ10, applyPipelineRaw, applyStageRaw, applyEntriesRaw,
    PAssign.applyRaw, NumExpr.evalRaw, multiplyError]

/-- C17, amended: for every stored collection `d` and each conditional update or delete
of the script (steps 2, 3, 4, 6, 7, 9, 10 and 11), if no document satisfies the
predicate of the step (a price condition being met by numbers only), the step succeeds
and returns the collection unchanged; the same holds for a collection `c` of documents
of the data model. Steps 2, 3, 4, 6, 7, 9 and 10 succeed on every stored collection;
step 11 succeeds whenever each document with book_id B010 has a number as price; and on
a collection of documents of the data model every step succeeds, with the collection
the step yields there. -/
theorem C17_outcomes (d : List RawBook) (c : Collection) :
    ((∀ x ∈ d, ¬ (x.category = .str "Technology" ∧ ∃ p, x.price = .num p ∧ p < 40)) →
      step2Raw d = .ok d) ∧
    ((∀ x ∈ d, ¬ (x.book_id = .str "B008" ∧ x.in_stock = .bool false)) →
      step3Raw d = .ok d) ∧
    ((∀ x ∈ d, ¬ (x.author = .str "John Smith" ∧ x.category = .str "Technology" ∧
        (∃ p, x.price = .num p ∧ 20 < p) ∧ x.in_stock = .bool true)) →
      step4Raw d = .ok d) ∧
    ((∀ x ∈ d, ¬ ((x.category = .str "Programming" ∧ x.in_stock = .bool false) ∨
        ∃ p, x.price = .num p ∧ 50 < p)) →
      step6Raw d = .ok d) ∧
    ((∀ x ∈ d, ¬ (x.book_id = .str "B005" ∨ x.book_id = .str "B006")) →
      step7Raw d = .ok d) ∧
    ((∀ x ∈ d, ¬ (x.category = .str "Programming" ∧ x.in_stock = .bool true ∧
        ∃ p, x.price = .num p ∧ p < 50)) →
      step9Raw d = .ok d) ∧
    ((∀ x ∈ d, ¬ (x.category = .str "Technology" ∧ (∃ p, x.price = .num p ∧ p < 30) ∧
        x.in_stock = .bool false)) →
      step10Raw d = .ok d) ∧
    ((∀ x ∈ d, ¬ (x.book_id = .str "B010")) →
      step11Raw d = .ok d) ∧
    ((∀ b ∈ c, ¬ (b.category = "Technology" ∧ b.price < 40)) →
      step2Raw (c.map Book.toRaw) = .ok (c.map Book.toRaw)) ∧
    ((∀ b ∈ c, ¬ (b.book_id = "B008" ∧ b.in_stock = false)) →
      step3Raw (c.map Book.toRaw) = .ok (c.map Book.toRaw)) ∧
    ((∀ b ∈ c, ¬ (b.author = "John Smith" ∧ b.category = "Technology" ∧ 20 < b.price ∧
        b.in_stock = true)) →
      step4Raw (c.map Book.toRaw) = .ok (c.map Book.toRaw)) ∧
    ((∀ b ∈ c, ¬ ((b.category = "Programming" ∧ b.in_stock = false) ∨ 50 < b.price)) →
      step6Raw (c.map Book.toRaw) = .ok (c.map Book.toRaw)) ∧
    ((∀ b ∈ c, ¬ (b.book_id = "B005" ∨ b.book_id = "B006")) →
      step7Raw (c.map Book.toRaw) = .ok (c.map Book.toRaw)) ∧
    ((∀ b ∈ c, ¬ (b.category = "Programming" ∧ b.in_stock = true ∧ b.price < 50)) →
      step9Raw (c.map Book.toRaw) = .ok (c.map Book.toRaw)) ∧
    ((∀ b ∈ c, ¬ (b.category = "Technology" ∧ b.price < 30 ∧ b.in_stock = false)) →
      step10Raw (c.map Book.toRaw) = .ok (c.map Book.toRaw)) ∧
    ((∀ b ∈ c, ¬ (b.book_id = "B010")) →
      step11Raw (c.map Book.toRaw) = .ok (c.map Book.toRaw)) ∧
    (∃ r, step2Raw d = .ok r) ∧
    (∃ r, step3Raw d = .ok r) ∧
    (∃ r, step4Raw d = .ok r) ∧
    (∃ r, step6Raw d = .ok r) ∧
    (∃ r, step7Raw d = .ok r) ∧
    (∃ r, step9Raw d = .ok r) ∧
    (∃ r, step10Raw d = .ok r) ∧
    ((∀ x ∈ d, x.book_id = .str "B010" → ∃ p, x.price = .num p) →
      ∃ r, step11Raw d = .ok r) ∧
    step2Raw (c.map Book.toRaw) = .ok ((step2 c).map Book.toRaw) ∧
    step3Raw (c.map Book.toRaw) = .ok ((step3 c).map Book.toRaw) ∧
    step4Raw (c.map Book.toRaw) = .ok ((step4 c).map Book.toRaw) ∧
    step6Raw (c.map Book.toRaw) = .ok ((step6 c).map Book.toRaw) ∧
    step7Raw (c.map Book.toRaw) = .ok ((step7 c).map Book.toRaw) ∧
    step9Raw (c.map Book.toRaw) = .ok ((step9 c).map Book.toRaw) ∧
    step10Raw (c.map Book.toRaw) = .ok ((step10 c).map Book.toRaw) ∧
    step11Raw (c.map Book.toRaw) = .ok ((step11 c).map Book.toRaw) :=
  ⟨fun h => congrArg Except.ok (updateManyRaw_of_none filterQ1 _ d
      (fun x hx =>
        Bool.eq_false_iff.mpr (fun hs => h x hx ((filterQ1_satRaw x).mp hs)))),
    fun h => congrArg Except.ok (deleteOneRaw_of_none filterQ2 d
      (fun x hx =>
        Bool.eq_false_iff.mpr (fun hs => h x hx ((filterQ2_satRaw x).mp hs)))),
    fun h => congrArg Except.ok (updateManyRaw_of_none filterQ3 _ d
      (fun x hx =>
        Bool.eq_false_iff.mpr (fun hs => h x hx ((filterQ3_satRaw x).mp hs)))),
    fun h => congrArg Except.ok (deleteManyRaw_of_none filterQ5 d
      (fun x hx =>
        Bool.eq_false_iff.mpr (fun hs => h x hx ((filterQ5_satRaw x).mp hs)))),
    fun h => congrArg Except.ok (updateManyRaw_of_none filterQ6 _ d
      (fun x hx =>
        Bool.eq_false_iff.mpr (fun hs => h x hx ((filterQ6_satRaw x).mp hs)))),
    fun h => congrArg Except.ok (updateManyRaw_of_none filterQ8 _ d
      (fun x hx =>
        Bool.eq_false_iff.mpr (fun hs => h x hx ((filterQ8_satRaw x).mp hs)))),
    fun h => congrArg Except.ok (deleteManyRaw_of_none filterQ9 d
      (fun x hx =>
        Bool.eq_false_iff.mpr (fun hs => h x hx ((filterQ9_satRaw x).mp hs)))),
    fun h => updateOneRaw_of_none filterQ10 pipelineQ10 d
      (fun x hx =>
        Bool.eq_false_iff.mpr (fun hs => h x hx ((filterQ10_satRaw x).mp hs))),
    fun h => congrArg Except.ok (updateManyRaw_of_none filterQ1 _ _
      (toRaw_none_of_none filterQ1 c filterQ1_satRaw_toRaw (fun b hb => by
        rw [filterQ1_sat]
        exact decide_eq_false (h b hb)))),
    fun h => congrArg Except.ok (deleteOneRaw_of_none filterQ2 _
      (toRaw_none_of_none filterQ2 c filterQ2_satRaw_toRaw (fun b hb => by
        rw [filterQ2_sat]
        exact decide_eq_false (h b hb)))),
    fun h => congrArg Except.ok (updateManyRaw_of_none filterQ3 _ _
      (toRaw_none_of_none filterQ3 c filterQ3_satRaw_toRaw (fun b hb => by
        rw [filterQ3_sat]
        exact decide_eq_false (h b hb)))),
    fun h => congrArg Except.ok (deleteManyRaw_of_none filterQ5 _
      (toRaw_none_of_none filterQ5 c filterQ5_satRaw_toRaw (fun b hb => by
        rw [filterQ5_sat]
        exact decide_eq_false (h b hb)))),
    fun h => congrArg Except.ok (updateManyRaw_of_none filterQ6 _ _
      (toRaw_none_of_none filterQ6 c filterQ6_satRaw_toRaw (fun b hb => by
        rw [filterQ6_sat]
        exact decide_eq_false (h b hb)))),
    fun h => congrArg Except.ok (updateManyRaw_of_none filterQ8 _ _
      (toRaw_none_of_none filterQ8 c filterQ8_satRaw_toRaw (fun b hb => by
        rw [filterQ8_sat]
        exact decide_eq_false (h b hb)))),
    fun h => congrArg Except.ok (deleteManyRaw_of_none filterQ9 _
      (toRaw_none_of_none filterQ9 c filterQ9_satRaw_toRaw (fun b hb => by
        rw [filterQ9_sat]
        exact decide_eq_false (h b hb)))),
    fun h => updateOneRaw_of_none filterQ10 pipelineQ10 _
      (toRaw_none_of_none filterQ10 c filterQ10_satRaw_toRaw (fun b hb => by
        rw [filterQ10_sat]
        exact decide_eq_false (h b hb))),
    ⟨_, rfl⟩, ⟨_, rfl⟩, ⟨_, rfl⟩, ⟨_, rfl⟩, ⟨_, rfl⟩, ⟨_, rfl⟩, ⟨_, rfl⟩,
    fun h => step11Raw_ok_of_numeric d
      (fun x hx hs => h x hx ((filterQ10_satRaw x).mp hs)),
    congrArg Except.ok (updateManyRaw_toRaw filterQ1 _ c filterQ1_satRaw_toRaw),
    congrArg Except.ok (deleteOneRaw_toRaw filterQ2 c filterQ2_satRaw_toRaw),
    congrArg Except.ok (updateManyRaw_toRaw filterQ3 _ c filterQ3_satRaw_toRaw),
    congrArg Except.ok (deleteManyRaw_toRaw filterQ5 c filterQ5_satRaw_toRaw),
    congrArg Except.ok (updateManyRaw_toRaw filterQ6 _ c filterQ6_satRaw_toRaw),
    congrArg Except.ok (updateManyRaw_toRaw filterQ8 _ c filterQ8_satRaw_toRaw),
    congrArg Except.ok (deleteManyRaw_toRaw filterQ9 c filterQ9_satRaw_toRaw),
    updateOneRaw_toRaw filterQ10 pipelineQ10 c filterQ10_satRaw_toRaw
      pipelineQ10_applyRaw_toRaw⟩

/-- Witness of C17: a stored document that no predicate of the script matches, its price
a text, is left as it is by step 2 and by step 11; and step 11 succeeds on the seed. -/
theorem C17_outcomes_witness :
    step2Raw
      [⟨.str "B011", .str "Graph Theory", .str "Nina Stone", .str "Mathematics",
        .str "n/a", .bool true⟩] =
      .ok
      [⟨.str "B011", .str "Graph Theory", .str "Nina Stone", .str "Mathematics",
        .str "n/a", .bool true⟩] ∧
    step11Raw
      [⟨.str "B011", .str "Graph Theory", .str "Nina Stone", .str "Mathematics",
        .str "n/a", .bool true⟩] =
      .ok
      [⟨.str "B011", .str "Graph Theory", .str "Nina Stone", .str "Mathematics",
        .str "n/a", .bool true⟩] ∧
    (∃ r, step11Raw (seed.map Book.toRaw) = .ok r) :=
  ⟨(C17_outcomes
      [⟨.str "B011", .str "Graph Theory", .str "Nina Stone", .str "Mathematics",
        .str "n/a", .bool true⟩]
      seed).1 (by simp),
    (C17_outcomes
      [⟨.str "B011", .str "Graph Theory", .str "Nina Stone", .str "Mathematics",
        .str "n/a", .bool true⟩]
      seed).2.2.2.2.2.2.2.1 (by simp),
    ⟨_, (C17_outcomes [] seed).2.2.2.2.2.2.2.2.2.2.2.2.2.2.2.2.2.2.2.2.2.2.2.2.2.2.2.2.2.2.2⟩⟩

theorem runThrough_independent (prior other : Collection) (n : Nat) (hn : 1 ≤ n) :
    runThrough n prior = runThrough n other := by
  induction n with
  | zero => omega
  | succ m ih =>
    rcases Nat.eq_zero_or_pos m with rfl | hpos
    · rw [runThrough_1, runThrough_1]
    · show applyStep (m + 1) (runThrough m prior) = applyStep (m + 1) (runThrough m other)
      rw [ih hpos]

/-- C18: whatever the collection held before, after the reset-and-seed step it consists
of exactly the ten literal seed records, with the pairwise distinct book_id values B001
to B010; hence every later state of the script, and so its result, is the same for any
two prior contents. -/
theorem C18_reset_and_seed (prior : Collection) :
    step1 prior =
      [ ⟨"B001", "Data Science Fundamentals", "John Smith", "Technology", 29.99, true⟩,
        ⟨"B002", "Learning MongoDB", "Jane Doe", "Technology", 35.99, false⟩,
        ⟨"B003", "Web Development with JavaScript", "Mark Lee", "Programming", 24.99, true⟩,
        ⟨"B004", "Introduction to Python", "Alice Brown", "Programming", 19.99, true⟩,
        ⟨"B005", "Advanced SQL Queries", "Michael White", "Database", 45.99, true⟩,
        ⟨"B006", "C++ Basics", "John Smith", "Programming", 29.99, true⟩,
        ⟨"B007", "Machine Learning with Python", "Sara Green", "Technology", 39.99, true⟩,
        ⟨"B008", "Deep Learning Essentials", "David Grey", "Technology", 59.99, false⟩,
        ⟨"B009", "Data Structures in Java", "Lucas Blue", "Programming", 49.99, true⟩,
        ⟨"B010", "Artificial Intelligence", "Sophia Grey", "Technology", 69.99, true⟩ ] ∧
    (step1 prior).length = 10 ∧
    (step1 prior).map Book.book_id =
      ["B001", "B002", "B003", "B004", "B005", "B006", "B007", "B008", "B009", "B010"] ∧
    ((step1 prior).map Book.book_id).Nodup ∧
    runThrough 1 prior = step1 prior ∧
    (∀ (other : Collection) (n : Nat), 1 ≤ n → runThrough n prior = runThrough n other) ∧
    (∀ (other : Collection), step12 (runThrough 11 prior) = step12 (runThrough 11 other)) := by
  have h : step1 prior = seed := by
    simp [step1, insertMany, drop]
  refine ⟨by rw [h]; rfl, by rw [h]; rfl, by rw [h]; rfl, ?_, rfl, ?_, ?_⟩
  · rw [h]
    simp [seed]
  · intro other n hn
    exact runThrough_independent prior other n hn
  · intro other
    rw [runThrough_independent prior other 11 (by omega)]

/-- C19: on the run from the seed, step 4 matches no record and changes nothing: the
only seeded record by John Smith in category Technology is B001, priced 29.99 (less
than 40), which step 2 has set to in_stock = false; so no price is set to 35, and in no
state of the run, after any of steps 1 to 12, does a record have price 35. -/
theorem C19_step4_matches_nothing (prior : Collection) :
    (∀ s ∈ seed, s.author = "John Smith" → s.category = "Technology" →
      s.book_id = "B001" ∧ s.price = 29.99 ∧ s.price < 40) ∧
    (∃ s ∈ seed, s.author = "John Smith" ∧ s.category = "Technology") ∧
    (∀ b ∈ runThrough 2 prior, b.book_id = "B001" → b.in_stock = false) ∧
    (∀ b ∈ runThrough 3 prior, ¬ (b.author = "John Smith" ∧ b.category = "Technology" ∧
      20 < b.price ∧ b.in_stock = true)) ∧
    (∀ b ∈ runThrough 3 prior, filterQ3.sat b = false) ∧
    step4 (runThrough 3 prior) = runThrough 3 prior ∧
    runThrough 4 prior = runThrough 3 prior ∧
    (∀ n, 1 ≤ n → n ≤ 12 → ∀ b ∈ runThrough n prior, b.price ≠ 35) := by
  refine ⟨?_, ?_, ?_, ?_, ?_, ?_, ?_, ?_⟩
  · simp [seed]
    norm_num
  · simp [seed]
  · rw [runThrough_2]
    simp
  · rw [runThrough_3]
    simp
  · rw [runThrough_3]
    simp [filterQ3_sat]
  · rw [runThrough_3]
    simp [step4, updateMany, filterQ3_sat]
  · rw [runThrough_4, runThrough_3]
  · intro n h1 h12
    interval_cases n
    · rw [runThrough_1]
      norm_num [seed]
    · rw [runThrough_2]
      norm_num
    · rw [runThrough_3]
      norm_num
    · rw [runThrough_4]
      norm_num
    · rw [runThrough_5]
      norm_num
    · rw [runThrough_6]
      norm_num
    · rw [runThrough_7]
      norm_num
    · rw [runThrough_8]
      norm_num
    · rw [runThrough_9]
      norm_num
    · rw [runThrough_10]
      norm_num
    · rw [runThrough_11]
      norm_num
    · rw [runThrough_12]
      norm_num

/-- C20: the trailing query has strict bounds (price > 30 and price < 60) where step 8
has inclusive ones: on every collection its result is the part of the result of step 8
whose prices are neither 30 nor 60; the two results differ on a collection holding a
Jane Doe or Database record priced exactly 30 or 60, which step 8 returns and the
trailing query does not; and on the final collection of the run from the seed the
trailing query returns exactly B002 and B005, the records step 8 returned. -/
theorem C20_trailing_strict_bounds (c : Collection) :
    trailingFind c = c.filter (fun b =>
      decide ((b.author = "Jane Doe" ∨ b.category = "Database") ∧
        30 < b.price ∧ b.price < 60)) ∧
    trailingFind c = (step8 c).filter (fun b => decide (b.price ≠ 30 ∧ b.price ≠ 60)) ∧
    (∀ b : Book, (b.author = "Jane Doe" ∨ b.category = "Database") →
      (b.price = 30 ∨ b.price = 60) →
      step8 [b] = [b] ∧ trailingFind [b] = [] ∧ trailingFind [b] ≠ step8 [b]) ∧
    (∃ d : Collection, trailingFind d ≠ step8 d) ∧
    (∀ prior : Collection, trailingFind (runThrough 12 prior) =
      [ ⟨"B002", "Learning MongoDB", "Jane Doe", "Technology", 35.99, false⟩,
        ⟨"B005", "Advanced SQL Queries", "Michael White", "Database", 40, true⟩ ]) ∧
    (∀ prior : Collection,
      trailingFind (runThrough 12 prior) = step8 (runThrough 7 prior)) := by
  have hT : ∀ d : Collection, trailingFind d = d.filter (fun b =>
      decide ((b.author = "Jane Doe" ∨ b.category = "Database") ∧
        30 < b.price ∧ b.price < 60)) := by
    intro d
    simp only [trailingFind, find, filterTrailing_sat]
  have h8 : ∀ d : Collection, step8 d = d.filter (fun b =>
      decide ((b.author = "Jane Doe" ∨ b.category = "Database") ∧
        30 ≤ b.price ∧ b.price ≤ 60)) := by
    intro d
    simp only [step8, find, filterQ7_sat]
  have hpair : ∀ b : Book, (b.author = "Jane Doe" ∨ b.category = "Database") →
      (b.price = 30 ∨ b.price = 60) →
      step8 [b] = [b] ∧ trailingFind [b] = [] ∧ trailingFind [b] ≠ step8 [b] := by
    intro b hac hp
    have hs : step8 [b] = [b] := by
      rw [h8]
      rcases hp with hp | hp <;> simp [hac, hp] <;> norm_num
    have ht : trailingFind [b] = [] := by
      rw [hT]
      rcases hp with hp | hp <;> simp [hp]
    refine ⟨hs, ht, ?_⟩
    rw [hs, ht]
    simp
  have hrun : ∀ prior : Collection, trailingFind (runThrough 12 prior) =
      [ ⟨"B002", "Learning MongoDB", "Jane Doe", "Technology", 35.99, false⟩,
        ⟨"B005", "Advanced SQL Queries", "Michael White", "Database", 40, true⟩ ] := by
    intro prior
    rw [runThrough_12, hT]
    norm_num [List.filter_cons]
    simp
  refine ⟨hT c, ?_, hpair, ?_, hrun, ?_⟩
  · rw [hT, h8, List.filter_filter]
    congr 1
    funext b
    rw [Bool.eq_iff_iff]
    simp only [Bool.and_eq_true, decide_eq_true_eq]
    constructor
    · rintro ⟨hac, hlo, hhi⟩
      exact ⟨⟨ne_of_gt hlo, ne_of_lt hhi⟩, hac, le_of_lt hlo, le_of_lt hhi⟩
    · rintro ⟨⟨hne30, hne60⟩, hac, hlo, hhi⟩
      exact ⟨hac, lt_of_le_of_ne hlo (Ne.symm hne30), lt_of_le_of_ne hhi hne60⟩
  · exact ⟨[⟨"B011", "Exactly Thirty", "Jane Doe", "Technology", 30, true⟩],
      (hpair ⟨"B011", "Exactly Thirty", "Jane Doe", "Technology", 30, true⟩
        (Or.inl rfl) (Or.inl rfl)).2.2⟩
  · intro prior
    rw [hrun, runThrough_7, h8]
    norm_num [List.filter_cons]
    simp

end Q4
